import Mathlib

/-!
Shallow embedding of the dosimetry code in this repository
(clinical_xray_app/esak_calculator.py, clinical_xray_app/app.py,
clinical_xray_app/data_export.py and
"10_Optimizing the tube potential"/metrics.py) together with proofs about it.

The external spectrum engine (the SpekPy library) and the numeric libraries
(numpy, scipy) are not part of this repository; they are modelled abstractly:
an Engine is a bundle of deterministic functions over an abstract spectrum
state type, with Except results standing for Python exceptions.  Machine
floats are modelled as rational numbers.
-/

namespace XraySpec

/-- A filtration entry as appended by ESAKCalculator.add_filtration:
a material name and a thickness in millimetres. -/
structure FilterSpec where
  material : String
  thickness_mm : ℚ
deriving DecidableEq

/-- The calculator parameter dictionary (ESAKCalculator.parameters).  The
Python code only ever writes the string keys below; each is modelled as an
Option field recording whether the key is present. -/
structure ParamDict where
  kvp : Option ℚ
  ma : Option ℚ
  time_s : Option ℚ
  mas : Option ℚ
  anode_angle : Option ℚ
  target_material : Option String
  ssd_cm : Option ℚ
  filters : Option (List FilterSpec)
  field_size_cm : Option ℚ
  phantom_material : Option String
deriving DecidableEq

/-- The empty Python dict, the initial value of ESAKCalculator.parameters. -/
def ParamDict.empty : ParamDict :=
  ⟨none, none, none, none, none, none, none, none, none, none⟩

/-- Lookup in a string-keyed Python dict modelled as an association list
(first occurrence wins; keys are unique by construction). -/
def dictGet {α : Type} : List (String × α) → String → Option α
  | [], _ => none
  | kv :: rest, k => if kv.1 = k then some kv.2 else dictGet rest k

/-- Python dict assignment d[k] = v: update the existing entry in place, or
append a new entry at the end (insertion order is preserved). -/
def dictSet {α : Type} : List (String × α) → String → α → List (String × α)
  | [], k, v => [(k, v)]
  | kv :: rest, k, v => if kv.1 = k then (k, v) :: rest else kv :: dictSet rest k v

/-- A value stored in the nested calculation-notes dict of
calculate_all_metrics. -/
inductive NoteV where
  | num (q : ℚ)
  | str (s : String)
deriving DecidableEq

/-- A value stored in the ESAKCalculator results dict. -/
inductive RVal where
  | num (q : ℚ)
  | str (s : String)
  | params (p : ParamDict)
  | notes (n : List (String × NoteV))
deriving DecidableEq

/-- ESAKCalculator.results: a string-keyed Python dict. -/
abbrev RDict : Type := List (String × RVal)

/-- The external spectrum engine (the SpekPy library), modelled as a bundle
of deterministic functions over an abstract spectrum-object type σ.  An
Except.error result stands for a Python exception raised by the engine;
spAvailable = false models the ImportError path in which the module-level
dependency import failed and both sp and RegularGridInterpolator are
None. -/
structure Engine (σ : Type) where
  spAvailable : Bool
  Spek : ℚ → ℚ → Except String σ
  filter : σ → String → ℚ → Except String σ
  get_kerma : σ → Except String ℚ
  get_hvl1 : σ → String → Except String ℚ
  get_hvl2 : σ → Except String ℚ
  get_emean : σ → Except String ℚ
  get_eeff : σ → Except String ℚ
  get_flu : σ → Except String ℚ
  get_eflu : σ → Except String ℚ
  get_hc : σ → Except String ℚ
  get_spectrum : σ → Except String (List ℚ × List ℚ)
  get_spectrum_edges : σ → Except String (List ℚ × List ℚ)
  get_muen_over_rho_air : List ℚ → Except String (List ℚ)

/-- The mutable state of one ESAKCalculator instance. -/
structure CalcState (σ : Type) where
  spectrum : Option σ
  parameters : ParamDict
  results : RDict

/-- A freshly constructed ESAKCalculator (spectrum None, empty dicts). -/
def CalcState.init (σ : Type) : CalcState σ :=
  ⟨none, ParamDict.empty, []⟩

/-- ESAKCalculator.set_clinical_parameters: replaces the whole parameter
dict with exactly the seven keys written by the method. -/
def set_clinical_parameters {σ : Type} (kvp ma time_s anode_angle : ℚ)
    (target_material : String) (ssd_cm : ℚ) (st : CalcState σ) : CalcState σ :=
  { st with parameters :=
      { kvp := some kvp
        ma := some ma
        time_s := some time_s
        mas := some (ma * time_s)
        anode_angle := some anode_angle
        target_material := some target_material
        ssd_cm := some ssd_cm
        filters := none
        field_size_cm := none
        phantom_material := none } }

/-- ESAKCalculator.add_filtration: creates the filters list if absent and
appends the new entry. -/
def add_filtration {σ : Type} (material : String) (thickness_mm : ℚ)
    (st : CalcState σ) : CalcState σ :=
  { st with parameters :=
      { st.parameters with
        filters := some ((st.parameters.filters.getD []) ++ [⟨material, thickness_mm⟩]) } }

/-- ESAKCalculator.set_field_parameters: dict update adding the two field
keys. -/
def set_field_parameters {σ : Type} (field_size_cm : ℚ) (phantom_material : String)
    (st : CalcState σ) : CalcState σ :=
  { st with parameters :=
      { st.parameters with
        field_size_cm := some field_size_cm
        phantom_material := some phantom_material } }

/-- The filtration loop of generate_spectrum: self.spectrum.filter(...) for
each configured filter.  On an engine exception the loop stops; the error
carries the spectrum object as mutated so far (the assignments preceding the
failing call have already happened on the Python object). -/
def applyFilters {σ : Type} (E : Engine σ) : σ → List FilterSpec → Except (σ × String) σ
  | s, [] => Except.ok s
  | s, f :: rest =>
    match E.filter s f.material f.thickness_mm with
    | Except.ok s2 => applyFilters E s2 rest
    | Except.error e => Except.error (s, e)

/-- The try-block of generate_spectrum as a pure function of the parameter
dict.  Except.ok s is a fully filtered spectrum; Except.error (some s) is a
failure that happened after self.spectrum had already been assigned (a
filter call raised); Except.error none is a failure with self.spectrum left
untouched (missing key or a raising Spek constructor). -/
def genTry {σ : Type} (E : Engine σ) (P : ParamDict) : Except (Option σ) σ :=
  match P.kvp, P.anode_angle with
  | some kvp, some th =>
    match E.Spek kvp th with
    | Except.error _ => Except.error none
    | Except.ok s0 =>
      match applyFilters E s0 (P.filters.getD []) with
      | Except.ok s => Except.ok s
      | Except.error (s, _) => Except.error (some s)
  | _, _ => Except.error none

/-- ESAKCalculator.generate_spectrum. -/
def generate_spectrum {σ : Type} (E : Engine σ) (st : CalcState σ) : Bool × CalcState σ :=
  if E.spAvailable = false then (false, st)
  else if st.parameters = ParamDict.empty then (false, st)
  else
    match genTry E st.parameters with
    | Except.ok s => (true, { st with spectrum := some s })
    | Except.error (some s) => (false, { st with spectrum := some s })
    | Except.error none => (false, st)

/-- The guard shared by the spectrum-consuming methods:
if self.spectrum is None and generate_spectrum() fails, return the fallback
value, otherwise run the body on the (possibly updated) state. -/
def ensureSpectrum {σ α : Type} (E : Engine σ) (st : CalcState σ)
    (body : CalcState σ → α × CalcState σ) (fallback : α) : α × CalcState σ :=
  match st.spectrum with
  | none =>
    match generate_spectrum E st with
    | (true, st2) => body st2
    | (false, st2) => (fallback, st2)
  | some _ => body st

/-- The try-block of calculate_esak as a pure function of the spectrum
object and the parameter dict: returns (esak_mgy, kerma_per_mas, distance
correction), or none when a Python exception occurs (engine error, missing
dict key, or division by a zero SSD). -/
def esakTry {σ : Type} (E : Engine σ) (s : σ) (P : ParamDict) : Option (ℚ × ℚ × ℚ) :=
  match E.get_kerma s with
  | Except.error _ => none
  | Except.ok kerma_per_mas =>
    match P.mas, P.ssd_cm with
    | some mas, some ssd =>
      if ssd = 0 then none
      else
        let total_kerma_ugy := kerma_per_mas * mas
        let distance_correction := (100 / ssd) ^ 2
        let corrected_kerma_ugy := total_kerma_ugy * distance_correction
        let esak_mgy := corrected_kerma_ugy / 1000
        some (esak_mgy, kerma_per_mas, distance_correction)
    | _, _ => none

/-- ESAKCalculator.calculate_esak. -/
def calculate_esak {σ : Type} (E : Engine σ) (st : CalcState σ) : ℚ × CalcState σ :=
  ensureSpectrum E st (fun st2 =>
    match st2.spectrum with
    | some s =>
      match esakTry E s st2.parameters with
      | some (esak_mgy, kerma_per_mas, distance_correction) =>
        let r1 := dictSet st2.results "esak_mgy" (RVal.num esak_mgy)
        let r2 := dictSet r1 "kerma_per_mas_ugy" (RVal.num kerma_per_mas)
        let r3 := dictSet r2 "distance_correction" (RVal.num distance_correction)
        (esak_mgy, { st2 with results := r3 })
      | none => (0, st2)
    | none => (0, st2)) 0

/-- The packaged backscatter-factor data file monoBSFw.npz: a 3-D table
Bw indexed over the axes SSD (source-to-skin distance), k (photon energy)
and D (field diameter). -/
structure BsfTable where
  SSD : List ℚ
  k : List ℚ
  D : List ℚ
  Bw : List (List (List ℚ))

/-- Locate x inside an increasing grid axis: some (i, t) with
g[i] ≤ x ≤ g[i+1] and t the normalised offset of x in that cell; none when
x lies outside the axis range (or the axis has fewer than two points). -/
def gridLocate : List ℚ → ℚ → Option (Nat × ℚ)
  | a :: b :: rest, x =>
    if x < a then none
    else if x ≤ b then some (0, (x - a) / (b - a))
    else (gridLocate (b :: rest) x).map (fun p => (p.1 + 1, p.2))
  | _, _ => none

/-- Entry (i, j, l) of the 3-D table (0 when out of range). -/
def tval (t : BsfTable) (i j l : Nat) : ℚ := ((t.Bw.getD i []).getD j []).getD l 0

/-- Modelled from the spec: the standard multilinear interpolation utility
supplied by the numeric library (scipy.interpolate.RegularGridInterpolator,
which is not part of this repository), as configured by the code: no bounds
error, and a constant fill value returned for every query point lying
outside the grid bounds; in-bounds points get trilinear interpolation of
the eight surrounding table values. -/
def interp3 (t : BsfTable) (fill : ℚ) (x y z : ℚ) : ℚ :=
  match gridLocate t.SSD x, gridLocate t.k y, gridLocate t.D z with
  | some (i, tx), some (j, ty), some (l, tz) =>
    let c00 := (1 - tz) * tval t i j l + tz * tval t i j (l + 1)
    let c01 := (1 - tz) * tval t i (j + 1) l + tz * tval t i (j + 1) (l + 1)
    let c10 := (1 - tz) * tval t (i + 1) j l + tz * tval t (i + 1) j (l + 1)
    let c11 := (1 - tz) * tval t (i + 1) (j + 1) l + tz * tval t (i + 1) (j + 1) (l + 1)
    (1 - tx) * ((1 - ty) * c00 + ty * c01) + tx * ((1 - ty) * c10 + ty * c11)
  | _, _, _ => fill

/-- numpy.sum over a 1-D array. -/
def sumQ (l : List ℚ) : ℚ := l.foldr (fun a b => a + b) 0

/-- Elementwise product of two equal-length numpy arrays. -/
def prodL (a b : List ℚ) : List ℚ := List.zipWith (fun x y => x * y) a b

/-- The try-block of calculate_bsf as a pure function of the spectrum
object, the loaded data file (none when the file was found in none of the
searched locations) and the parameter dict.  A some result is stored under
the key bsf in the results dict; none means the method returns 1.0 without
storing anything (missing file, engine exception, or a numpy shape
mismatch). -/
def bsfTry {σ : Type} (E : Engine σ) (bd : Option BsfTable) (s : σ)
    (P : ParamDict) : Option ℚ :=
  let field_size := P.field_size_cm.getD 10
  let ssd := P.ssd_cm.getD 100
  match bd with
  | none => none
  | some table =>
    match E.get_spectrum s with
    | Except.error _ => none
    | Except.ok (k, phi_k) =>
      let muen_over_rho :=
        match E.get_muen_over_rho_air k with
        | Except.ok m => m
        | Except.error _ => k.map (fun _ => 1)
      if phi_k.length = k.length ∧ muen_over_rho.length = k.length then
        let bsf_mono := k.map (fun kk => interp3 table 1 ssd kk field_size)
        let numerator := sumQ (prodL (prodL (prodL k phi_k) muen_over_rho) bsf_mono)
        let denominator := sumQ (prodL (prodL k phi_k) muen_over_rho)
        if denominator > 0 then some (numerator / denominator) else some 1
      else none

/-- ESAKCalculator.calculate_bsf. -/
def calculate_bsf {σ : Type} (E : Engine σ) (bd : Option BsfTable)
    (st : CalcState σ) : ℚ × CalcState σ :=
  if E.spAvailable = false then (1, st)
  else
    ensureSpectrum E st (fun st2 =>
      match st2.spectrum with
      | some s =>
        match bsfTry E bd s st2.parameters with
        | some bsf_spectrum =>
          (bsf_spectrum,
            { st2 with results := dictSet st2.results "bsf" (RVal.num bsf_spectrum) })
        | none => (1, st2)
      | none => (1, st2)) 1

/-- The beam-quality record assembled by
calculate_beam_quality_parameters. -/
structure BeamQuality where
  hvl1_al_mm : ℚ
  hvl2_al_mm : ℚ
  hvl1_cu_mm : ℚ
  mean_energy_kev : ℚ
  effective_energy_kev : ℚ
  total_fluence : ℚ
  energy_fluence_kev : ℚ
  homogeneity_coefficient : ℚ
deriving DecidableEq

/-- The try-block of calculate_beam_quality_parameters: all eight engine
queries must succeed, otherwise the method returns the empty dict. -/
def bqTry {σ : Type} (E : Engine σ) (s : σ) : Option BeamQuality := do
  let hvl1_al ← (E.get_hvl1 s "Al").toOption
  let hvl2_al ← (E.get_hvl2 s).toOption
  let hvl1_cu ← (E.get_hvl1 s "Cu").toOption
  let mean_energy ← (E.get_emean s).toOption
  let effective_energy ← (E.get_eeff s).toOption
  let total_fluence ← (E.get_flu s).toOption
  let energy_fluence ← (E.get_eflu s).toOption
  let homogeneity_coefficient ← (E.get_hc s).toOption
  pure ⟨hvl1_al, hvl2_al, hvl1_cu, mean_energy, effective_energy,
    total_fluence, energy_fluence, homogeneity_coefficient⟩

/-- The beam_quality dict literal of calculate_beam_quality_parameters, in
source key order. -/
def bqList (q : BeamQuality) : RDict :=
  [("hvl1_al_mm", RVal.num q.hvl1_al_mm),
   ("hvl2_al_mm", RVal.num q.hvl2_al_mm),
   ("hvl1_cu_mm", RVal.num q.hvl1_cu_mm),
   ("mean_energy_kev", RVal.num q.mean_energy_kev),
   ("effective_energy_kev", RVal.num q.effective_energy_kev),
   ("total_fluence", RVal.num q.total_fluence),
   ("energy_fluence_kev", RVal.num q.energy_fluence_kev),
   ("homogeneity_coefficient", RVal.num q.homogeneity_coefficient)]

/-- ESAKCalculator.calculate_beam_quality_parameters. -/
def calculate_beam_quality_parameters {σ : Type} (E : Engine σ)
    (st : CalcState σ) : RDict × CalcState σ :=
  ensureSpectrum E st (fun st2 =>
    match st2.spectrum with
    | some s =>
      match bqTry E s with
      | some q =>
        (bqList q,
          { st2 with results := (bqList q).foldl (fun r kv => dictSet r kv.1 kv.2) st2.results })
      | none => ([], st2)
    | none => ([], st2)) []

/-- ESAKCalculator.get_spectrum_data. -/
def get_spectrum_data {σ : Type} (E : Engine σ) (st : CalcState σ) :
    (List ℚ × List ℚ) × CalcState σ :=
  ensureSpectrum E st (fun st2 =>
    match st2.spectrum with
    | some s =>
      match E.get_spectrum_edges s with
      | Except.ok ef => (ef, st2)
      | Except.error _ => (([], []), st2)
    | none => (([], []), st2)) ([], [])

/-- ESAKCalculator.calculate_esak_with_bsf. -/
def calculate_esak_with_bsf {σ : Type} (E : Engine σ) (bd : Option BsfTable)
    (st : CalcState σ) : ℚ × CalcState σ :=
  let re := calculate_esak E st
  match re.2.parameters.field_size_cm with
  | some _ =>
    let rb := calculate_bsf E bd re.2
    let esak_with_bsf := re.1 * rb.1
    (esak_with_bsf,
      { rb.2 with results := dictSet rb.2.results "esak_with_bsf_mgy" (RVal.num esak_with_bsf) })
  | none => (re.1, re.2)

/-- Abstraction of the Python float formatting used in the bsf_note text
(only determinism in the formatted value matters to the claims). -/
def fmtQ (q : ℚ) : String := toString q

/-- The calculation_notes dict literal of calculate_all_metrics. -/
def calcNotesBase : List (String × NoteV) :=
  [("reference_distance_cm", NoteV.num 100),
   ("kerma_units", NoteV.str "Air kerma per mAs at 100 cm"),
   ("esak_definition", NoteV.str "Entrance Surface Air Kerma corrected for actual SSD")]

/-- The nested assignment all_results[calculation_notes][key] = v. -/
def setNote (r : RDict) (key : String) (v : NoteV) : RDict :=
  r.map (fun kv =>
    if kv.1 = "calculation_notes" then
      (kv.1, match kv.2 with
             | RVal.notes n => RVal.notes (dictSet n key v)
             | other => other)
    else kv)

/-- ESAKCalculator.calculate_all_metrics. -/
def calculate_all_metrics {σ : Type} (E : Engine σ) (bd : Option BsfTable)
    (st : CalcState σ) : RDict × CalcState σ :=
  let re := calculate_esak E st
  let rw := calculate_esak_with_bsf E bd re.2
  let rq := calculate_beam_quality_parameters E rw.2
  let st3 := rq.2
  let base : RDict :=
    [("parameters", RVal.params st3.parameters), ("esak_mgy", RVal.num re.1)]
      ++ rq.1 ++ [("calculation_notes", RVal.notes calcNotesBase)]
  let all_results : RDict :=
    match st3.parameters.field_size_cm with
    | some _ =>
      let bsf_value : ℚ :=
        match dictGet st3.results "bsf" with
        | some (RVal.num b) => b
        | _ => 1
      let r1 := dictSet base "esak_with_bsf_mgy" (RVal.num rw.1)
      let r2 := dictSet r1 "bsf" (RVal.num bsf_value)
      setNote r2 "bsf_note"
        (NoteV.str ("BSF correction applied for field size: " ++ fmtQ bsf_value))
    | none =>
      let r2 := dictSet base "bsf" (RVal.num 1)
      setNote r2 "bsf_note" (NoteV.str "BSF = 1.0 (no field size specified)")
  (all_results, { st3 with results := all_results })

/-- A JSON document value.  The Python standard-library json serializer and
parser (not part of this repository) round-trip JSON-representable values,
so file contents are modelled at this value level. -/
inductive JValue where
  | null
  | bool (b : Bool)
  | num (q : ℚ)
  | str (s : String)
  | arr (xs : List JValue)
  | obj (kvs : List (String × JValue))

/-- JSON document of one filtration entry (dict key order as written by
add_filtration). -/
def filterToJson (f : FilterSpec) : JValue :=
  JValue.obj [("material", JValue.str f.material), ("thickness_mm", JValue.num f.thickness_mm)]

/-- One optional key of the serialized parameter dict. -/
def jfield (k : String) (v : Option JValue) : List (String × JValue) :=
  match v with
  | some j => [(k, j)]
  | none => []

/-- JSON document of the parameter dict, keys in insertion order. -/
def paramsToJson (p : ParamDict) : JValue :=
  JValue.obj
    (jfield "kvp" (p.kvp.map JValue.num) ++
     jfield "ma" (p.ma.map JValue.num) ++
     jfield "time_s" (p.time_s.map JValue.num) ++
     jfield "mas" (p.mas.map JValue.num) ++
     jfield "anode_angle" (p.anode_angle.map JValue.num) ++
     jfield "target_material" (p.target_material.map JValue.str) ++
     jfield "ssd_cm" (p.ssd_cm.map JValue.num) ++
     jfield "filters" (p.filters.map (fun l => JValue.arr (l.map filterToJson))) ++
     jfield "field_size_cm" (p.field_size_cm.map JValue.num) ++
     jfield "phantom_material" (p.phantom_material.map JValue.str))

/-- JSON document of a calculation-notes value. -/
def noteToJson (v : NoteV) : JValue :=
  match v with
  | NoteV.num q => JValue.num q
  | NoteV.str s => JValue.str s

/-- JSON document of a results-dict value. -/
def rvalToJson (v : RVal) : JValue :=
  match v with
  | RVal.num q => JValue.num q
  | RVal.str s => JValue.str s
  | RVal.params p => paramsToJson p
  | RVal.notes n => JValue.obj (n.map (fun kv => (kv.1, noteToJson kv.2)))

/-- The filesystem seen by DataExporter: a map from file paths to the JSON
document stored in each file. -/
abbrev FileSys : Type := List (String × JValue)

/-- DataExporter (only the output directory matters to the modelled
methods). -/
structure DataExporter where
  output_dir : String

/-- DataExporter.export_configuration: wraps the parameters entry of the
results dict in a config object together with metadata and writes it to
output_dir/filename; returns the new filesystem and the written path.  The
created timestamp is an input (the wall clock is outside the model). -/
def export_configuration (ex : DataExporter) (results : RDict) (filename : String)
    (created : String) (fs : FileSys) : FileSys × String :=
  let filepath := ex.output_dir ++ "/" ++ filename
  let params_json :=
    match dictGet results "parameters" with
    | some v => rvalToJson v
    | none => JValue.obj []
  let config_data := JValue.obj
    [("metadata", JValue.obj
        [("created", JValue.str created),
         ("description", JValue.str "X-ray calculation configuration"),
         ("version", JValue.str "1.0.0")]),
     ("parameters", params_json),
     ("notes", JValue.str "This configuration can be loaded to reproduce the calculation")]
  (dictSet fs filepath config_data, filepath)

/-- DataExporter.load_configuration: parses the file at filepath and
returns its parameters entry (default empty dict); none models the
propagated exception for a missing or non-object file. -/
def load_configuration (fs : FileSys) (filepath : String) : Option JValue :=
  match dictGet fs filepath with
  | some (JValue.obj kvs) => some ((dictGet kvs "parameters").getD (JValue.obj []))
  | _ => none

/-- Partial inverse of paramsToJson: reading the loaded JSON document back
as a parameter dict (how the reloaded configuration is consumed). -/
def asNum : JValue → Option ℚ
  | JValue.num q => some q
  | _ => none

/-- String reading of a loaded JSON value. -/
def asStr : JValue → Option String
  | JValue.str s => some s
  | _ => none

/-- Reads one filtration entry back from JSON. -/
def filterFromJson (j : JValue) : Option FilterSpec :=
  match j with
  | JValue.obj kvs =>
    match (dictGet kvs "material").bind asStr, (dictGet kvs "thickness_mm").bind asNum with
    | some m, some t => some ⟨m, t⟩
    | _, _ => none
  | _ => none

/-- Reads the filtration list back from JSON. -/
def filtersFromJson (j : JValue) : Option (List FilterSpec) :=
  match j with
  | JValue.arr xs => xs.mapM filterFromJson
  | _ => none

/-- Reads a parameter dict back from a loaded JSON document. -/
def jsonToParams (j : JValue) : Option ParamDict :=
  match j with
  | JValue.obj kvs =>
    some
      { kvp := (dictGet kvs "kvp").bind asNum
        ma := (dictGet kvs "ma").bind asNum
        time_s := (dictGet kvs "time_s").bind asNum
        mas := (dictGet kvs "mas").bind asNum
        anode_angle := (dictGet kvs "anode_angle").bind asNum
        target_material := (dictGet kvs "target_material").bind asStr
        ssd_cm := (dictGet kvs "ssd_cm").bind asNum
        filters := (dictGet kvs "filters").bind filtersFromJson
        field_size_cm := (dictGet kvs "field_size_cm").bind asNum
        phantom_material := (dictGet kvs "phantom_material").bind asStr }
  | _ => none

/-- A filter row of the web form session state (app.py stores the key
thickness here, not thickness_mm). -/
structure WFilter where
  material : String
  thickness : ℚ
deriving DecidableEq

/-- The Streamlit per-session state relevant to the reset-on-change logic:
st.session_state.filters, st.session_state.previous_filters,
st.session_state.results and the session calculator instance.  The
visualizer, exporter, device-info and calculation-history entries do not
interact with that logic and are omitted. -/
structure SessionState (σ : Type) where
  filters : List WFilter
  previous_filters : List WFilter
  results : Option RDict
  calculator : CalcState σ

/-- The widget values and button events seen by one script rerun of
main(): the current value of every sidebar widget, plus which button (at
most one per rerun) the rerun is reacting to. -/
structure FormInputs where
  kvp : ℚ
  ma : ℚ
  time_s : ℚ
  anode_angle : ℚ
  ssd_cm : ℚ
  enable_bsf : Bool
  field_size_cm : ℚ
  phantom_material : String
  target_material : String
  filter_widgets : List WFilter
  remove_clicked : Option Nat
  add_clicked : Bool
  calculate_clicked : Bool
deriving DecidableEq

/-- The per-row writeback st.session_state.filters[i] = widget value
performed by the filter display loop: each displayed row takes its current
widget value (rows beyond the widget list keep their stored value). -/
def syncFilters : List WFilter → List WFilter → List WFilter
  | [], _ => []
  | _ :: rest, w :: ws => w :: syncFilters rest ws
  | f :: rest, [] => f :: syncFilters rest []

/-- app.py perform_calculation: builds a fresh ESAKCalculator from the
form values, adds only the filters with positive thickness, optionally
sets the field parameters, and runs calculate_all_metrics. -/
def perform_calculation {σ : Type} (E : Engine σ) (bd : Option BsfTable)
    (inp : FormInputs) (filters : List WFilter) : RDict × CalcState σ :=
  let c1 := set_clinical_parameters inp.kvp inp.ma inp.time_s inp.anode_angle
    inp.target_material inp.ssd_cm (CalcState.init σ)
  let c2 := filters.foldl
    (fun c f => if f.thickness > 0 then add_filtration f.material f.thickness c else c) c1
  let c3 := if inp.enable_bsf then set_field_parameters inp.field_size_cm inp.phantom_material c2
    else c2
  calculate_all_metrics E bd c3

/-- The tail of main() after the filter display loop: change detection
against previous_filters, the add-filter button, the calculate button and
the results display guard. -/
def mainAfterLoop {σ : Type} (E : Engine σ) (bd : Option BsfTable)
    (st : SessionState σ) (inp : FormInputs) (synced : List WFilter) : SessionState σ :=
  let changed := synced ≠ st.previous_filters
  let results1 := if changed then none else st.results
  let prev1 := if changed then synced else st.previous_filters
  if inp.add_clicked then
    { filters := synced ++ [⟨"Al", 1⟩], previous_filters := prev1, results := none,
      calculator := st.calculator }
  else if inp.calculate_clicked then
    let rc := perform_calculation E bd inp synced
    { filters := synced, previous_filters := prev1, results := some rc.1, calculator := rc.2 }
  else
    { filters := synced, previous_filters := prev1, results := results1,
      calculator := st.calculator }

/-- One script rerun of app.py main(), restricted to the session-state
transitions (widget rendering and tables are presentation only).  A click
on the remove button of row i pops that row, clears the results and
reruns immediately; rows before i have already taken their widget values,
rows after i have not. -/
def mainStep {σ : Type} (E : Engine σ) (bd : Option BsfTable)
    (st : SessionState σ) (inp : FormInputs) : SessionState σ :=
  match inp.remove_clicked with
  | some i =>
    if i < st.filters.length then
      { st with
        filters := (syncFilters st.filters inp.filter_widgets).take i ++ st.filters.drop (i + 1)
        results := none }
    else mainAfterLoop E bd st inp (syncFilters st.filters inp.filter_widgets)
  | none => mainAfterLoop E bd st inp (syncFilters st.filters inp.filter_widgets)

/-- The spectrum-engine and numpy primitives used by metrics.get_metrics,
modelled as total functions: the tutorial script installs no exception
handling, and the claim concerns the successful run. -/
structure TutorialEngine (σ : Type) where
  Spek : ℚ → ℚ → String → σ
  filter : σ → String → ℚ → σ
  clone : σ → σ
  get_k : σ → List ℚ
  get_spectrum : σ → ℚ → List ℚ × List ℚ
  get_kerma : σ → ℚ → ℚ
  get_mu_over_rho_composition : String → List ℚ → List ℚ × ℚ
  sqrt : ℚ → ℚ
  exp : ℚ → ℚ

/-- numpy.arange for a positive step: start, start+step, ... while the
value stays strictly below stop. -/
def arange (start stop step : ℚ) : List ℚ :=
  (List.range (⌈(stop - start) / step⌉.toNat)).map (fun (i : ℕ) => start + (i : ℚ) * step)

/-- The spectrum model built at the top of the get_metrics loop body:
Spek(kvp=kV, th=12, physics=physics) filtered by 3.5 mm Al, 0.1 mm Cu and
an SSD-long air column. -/
def metricsSpek {σ : Type} (T : TutorialEngine σ) (physics : String) (SSD kV : ℚ) : σ :=
  T.filter (T.filter (T.filter (T.Spek kV 12 physics) "Al" (7 / 2)) "Cu" (1 / 10)) "Air" (SSD * 10)

/-- The quantum-efficiency curve alpha of one loop iteration of
get_metrics (computed from the unattenuated spectrum energies). -/
def alphaOf {σ : Type} (T : TutorialEngine σ) (SSD : ℚ) (physics matd : String)
    (td rhod : ℚ) (kV : ℚ) : List ℚ :=
  let k := T.get_k (metricsSpek T physics SSD kV)
  ((T.get_mu_over_rho_composition matd k).1).map (fun m => 1 - T.exp (-(m * td * rhod)))

/-- The energy-bin width dk of one loop iteration. -/
def dkOf {σ : Type} (T : TutorialEngine σ) (SSD : ℚ) (physics : String) (kV : ℚ) : ℚ :=
  let k := T.get_k (metricsSpek T physics SSD kV)
  k.getD 1 0 - k.getD 0 0

/-- The grid-corrected fluence reaching the detector through a tissue
stack (the source multiplies the returned fluence array by G). -/
def phiThrough {σ : Type} (T : TutorialEngine σ) (stack : List (String × ℚ))
    (SDD SSD : ℚ) (physics : String) (G : ℚ) (kV : ℚ) : List ℚ :=
  let s := metricsSpek T physics SSD kV
  let sf := stack.foldl (fun sp item => T.filter sp item.1 (item.2 * 10)) (T.clone s)
  ((T.get_spectrum sf SDD).2).map (fun x => G * x)

/-- The energy bins the source has in scope at the detector sums (the
source rebinds k to the signal-spectrum energies before computing them). -/
def kSigOf {σ : Type} (T : TutorialEngine σ) (sg : List (String × ℚ))
    (SDD SSD : ℚ) (physics : String) (kV : ℚ) : List ℚ :=
  let s := metricsSpek T physics SSD kV
  (T.get_spectrum (sg.foldl (fun sp item => T.filter sp item.1 (item.2 * 10)) (T.clone s)) SDD).1

/-- The background detector signal sigb of one loop iteration. -/
def sigbOf {σ : Type} (T : TutorialEngine σ) (bg sg : List (String × ℚ)) (SDD SSD : ℚ)
    (physics matd : String) (td rhod f w G : ℚ) (kV : ℚ) : ℚ :=
  1 * f * w ^ 2 *
    sumQ (prodL (prodL (phiThrough T bg SDD SSD physics G kV)
      (alphaOf T SSD physics matd td rhod kV)) (kSigOf T sg SDD SSD physics kV)) *
    dkOf T SSD physics kV

/-- The signal detector signal sigs of one loop iteration. -/
def sigsOf {σ : Type} (T : TutorialEngine σ) (bg sg : List (String × ℚ)) (SDD SSD : ℚ)
    (physics matd : String) (td rhod f w G : ℚ) (kV : ℚ) : ℚ :=
  1 * f * w ^ 2 *
    sumQ (prodL (prodL (phiThrough T sg SDD SSD physics G kV)
      (alphaOf T SSD physics matd td rhod kV)) (kSigOf T sg SDD SSD physics kV)) *
    dkOf T SSD physics kV

/-- The background signal variance varb of one loop iteration. -/
def varbOf {σ : Type} (T : TutorialEngine σ) (bg sg : List (String × ℚ)) (SDD SSD : ℚ)
    (physics matd : String) (td rhod f w G : ℚ) (kV : ℚ) : ℚ :=
  1 ^ 2 * f * w ^ 2 *
    sumQ (prodL (prodL (phiThrough T bg SDD SSD physics G kV)
      (alphaOf T SSD physics matd td rhod kV))
      ((kSigOf T sg SDD SSD physics kV).map (fun x => x ^ 2))) *
    dkOf T SSD physics kV

/-- The relative contrast of one loop iteration. -/
def contrastOf {σ : Type} (T : TutorialEngine σ) (bg sg : List (String × ℚ)) (SDD SSD : ℚ)
    (physics matd : String) (td rhod f w G : ℚ) (kV : ℚ) : ℚ :=
  (sigbOf T bg sg SDD SSD physics matd td rhod f w G kV -
      sigsOf T bg sg SDD SSD physics matd td rhod f w G kV) /
    sigbOf T bg sg SDD SSD physics matd td rhod f w G kV

/-- The contrast-to-noise ratio of one loop iteration. -/
def cnrOf {σ : Type} (T : TutorialEngine σ) (bg sg : List (String × ℚ)) (SDD SSD : ℚ)
    (physics matd : String) (td rhod f w G : ℚ) (kV : ℚ) : ℚ :=
  contrastOf T bg sg SDD SSD physics matd td rhod f w G kV *
      sigbOf T bg sg SDD SSD physics matd td rhod f w G kV /
    T.sqrt (varbOf T bg sg SDD SSD physics matd td rhod f w G kV)

/-- The incident air kerma of one loop iteration. -/
def kiOf {σ : Type} (T : TutorialEngine σ) (SSD : ℚ) (physics : String) (kV : ℚ) : ℚ :=
  T.get_kerma (metricsSpek T physics SSD kV) SSD

/-- The dose-normalized CNR of one loop iteration. -/
def cnrdOf {σ : Type} (T : TutorialEngine σ) (bg sg : List (String × ℚ)) (SDD SSD : ℚ)
    (physics matd : String) (td rhod f w G : ℚ) (kV : ℚ) : ℚ :=
  cnrOf T bg sg SDD SSD physics matd td rhod f w G kV / T.sqrt (kiOf T SSD physics kV)

/-- One iteration of the get_metrics loop: the four scalars accumulated
for a single tube potential. -/
def metricsRow {σ : Type} (T : TutorialEngine σ) (bg sg : List (String × ℚ))
    (SDD SSD : ℚ) (physics matd : String) (td rhod f w G : ℚ) (kV : ℚ) :
    ℚ × ℚ × ℚ × ℚ :=
  (contrastOf T bg sg SDD SSD physics matd td rhod f w G kV,
   cnrOf T bg sg SDD SSD physics matd td rhod f w G kV,
   kiOf T SSD physics kV,
   cnrdOf T bg sg SDD SSD physics matd td rhod f w G kV)

/-- metrics.get_metrics: the kV grid and the four accumulated arrays.
SOD is accepted and unused exactly as in the source. -/
def get_metrics {σ : Type} (T : TutorialEngine σ) (bg sg : List (String × ℚ))
    (SDD SOD kV_inc : ℚ) (physics matd : String) (td rhod f w G : ℚ) :
    List ℚ × List ℚ × List ℚ × List ℚ × List ℚ :=
  let thickness := bg.foldl (fun acc item => acc + item.2) 0
  let SSD := SDD - thickness
  let kV_set := arange 50 151 kV_inc
  let rows := kV_set.map (fun kV => metricsRow T bg sg SDD SSD physics matd td rhod f w G kV)
  (kV_set, rows.map (fun r => r.1), rows.map (fun r => r.2.1),
   rows.map (fun r => r.2.2.1), rows.map (fun r => r.2.2.2))

/-- A simple total engine over a trivial spectrum type, used to evaluate
theorems at concrete inputs. -/
def demoEngine : Engine Unit :=
  { spAvailable := true
    Spek := fun _ _ => Except.ok ()
    filter := fun _ _ _ => Except.ok ()
    get_kerma := fun _ => Except.ok 5
    get_hvl1 := fun _ m => if m = "Al" then Except.ok 3 else Except.ok (3 / 25)
    get_hvl2 := fun _ => Except.ok 4
    get_emean := fun _ => Except.ok 60
    get_eeff := fun _ => Except.ok 55
    get_flu := fun _ => Except.ok 1000
    get_eflu := fun _ => Except.ok 60000
    get_hc := fun _ => Except.ok (3 / 4)
    get_spectrum := fun _ => Except.ok ([30, 60], [2, 1])
    get_spectrum_edges := fun _ => Except.ok ([30, 60, 90], [2, 1, 0])
    get_muen_over_rho_air := fun k => Except.ok (k.map (fun _ => 1)) }

/-- An engine whose every operation raises. -/
def failEngine : Engine Unit :=
  { spAvailable := true
    Spek := fun _ _ => Except.error "boom"
    filter := fun _ _ _ => Except.error "boom"
    get_kerma := fun _ => Except.error "boom"
    get_hvl1 := fun _ _ => Except.error "boom"
    get_hvl2 := fun _ => Except.error "boom"
    get_emean := fun _ => Except.error "boom"
    get_eeff := fun _ => Except.error "boom"
    get_flu := fun _ => Except.error "boom"
    get_eflu := fun _ => Except.error "boom"
    get_hc := fun _ => Except.error "boom"
    get_spectrum := fun _ => Except.error "boom"
    get_spectrum_edges := fun _ => Except.error "boom"
    get_muen_over_rho_air := fun _ => Except.error "boom" }

/-- An engine whose constructor succeeds but whose filter application
raises (an unknown filter material). -/
def filterFailEngine : Engine Unit :=
  { demoEngine with filter := fun _ _ _ => Except.error "unknown material" }

/-- A calculator state after set_clinical_parameters(120, 100, 0.1). -/
def demoState : CalcState Unit :=
  set_clinical_parameters 120 100 (1 / 10) 12 "W" 100 (CalcState.init Unit)

/-- demoState with a filter whose application will raise on
filterFailEngine. -/
def demoStateFilt : CalcState Unit := add_filtration "Xx" 1 demoState

/-- demoState with an already generated spectrum. -/
def demoStateSpek : CalcState Unit := { demoState with spectrum := some () }

/-- A small concrete backscatter table. -/
def demoTable : BsfTable :=
  { SSD := [50, 100]
    k := [10, 100]
    D := [5, 20]
    Bw := [[[6 / 5, 6 / 5], [6 / 5, 6 / 5]], [[6 / 5, 6 / 5], [6 / 5, 6 / 5]]] }

/-- A total tutorial engine for concrete evaluation. -/
def demoTutorialEngine : TutorialEngine Unit :=
  { Spek := fun _ _ _ => ()
    filter := fun _ _ _ => ()
    clone := fun s => s
    get_k := fun _ => [20, 40]
    get_spectrum := fun _ _ => ([20, 40], [3, 1])
    get_kerma := fun _ _ => 4
    get_mu_over_rho_composition := fun _ k => (k.map (fun _ => 1), 1)
    sqrt := fun q => q
    exp := fun _ => 0 }

/-- Form inputs of a calculate click at 120 kVp with one 2 mm Al
filter. -/
def demoInputs : FormInputs :=
  { kvp := 120, ma := 100, time_s := 1 / 10, anode_angle := 12, ssd_cm := 100,
    enable_bsf := false, field_size_cm := 10, phantom_material := "water",
    target_material := "W", filter_widgets := [⟨"Al", 2⟩],
    remove_clicked := none, add_clicked := false, calculate_clicked := false }

/-- The same form with the calculate button clicked. -/
def demoInputsCalc : FormInputs := { demoInputs with calculate_clicked := true }

/-- The same form viewed again after the tube voltage widget changed to
100 kVp, with no button clicked. -/
def demoInputsView : FormInputs := { demoInputs with kvp := 100 }

/-- A fresh session with one stored filter row. -/
def demoSession : SessionState Unit :=
  { filters := [⟨"Al", 2⟩], previous_filters := [⟨"Al", 2⟩], results := none,
    calculator := CalcState.init Unit }

/-- The same form as demoInputs but after the thickness widget of row one
changed to 3 mm. -/
def demoInputsChanged : FormInputs := { demoInputs with filter_widgets := [⟨"Al", 3⟩] }

/-- An engine over rational spectrum states (the state records the applied
aluminium thickness) with kerma antitone and first HVL monotone in that
thickness; used to evaluate the monotonicity theorem concretely. -/
def monoEngine : Engine ℚ :=
  { spAvailable := true
    Spek := fun _ _ => Except.ok 0
    filter := fun _ _ t => Except.ok t
    get_kerma := fun s => Except.ok (10 - s)
    get_hvl1 := fun s _ => Except.ok s
    get_hvl2 := fun s => Except.ok (s + 1)
    get_emean := fun s => Except.ok (60 + s)
    get_eeff := fun s => Except.ok (55 + s)
    get_flu := fun _ => Except.ok 1000
    get_eflu := fun _ => Except.ok 60000
    get_hc := fun _ => Except.ok (3 / 4)
    get_spectrum := fun _ => Except.ok ([30, 60], [2, 1])
    get_spectrum_edges := fun _ => Except.ok ([30, 60, 90], [2, 1, 0])
    get_muen_over_rho_air := fun k => Except.ok (k.map (fun _ => 1)) }

/-- A demo exporter. -/
def demoExporter : DataExporter := { output_dir := "exports" }

/-- The beam-quality record monoEngine reports for a spectrum state t. -/
def monoQ (t : ℚ) : BeamQuality :=
  ⟨t, t + 1, t, 60 + t, 55 + t, 1000, 60000, 3 / 4⟩

/-- A demo results dict holding a parameters entry. -/
def demoResults : RDict := [("parameters", RVal.params demoState.parameters)]

/-!  The remaining definitions are proof devices: closed forms of the
values computed by calculate_all_metrics, parameterised by the effective
spectrum object.  They are not source translations; the lemmas below prove
that the embedding above produces exactly these values. -/

/-- The esak value returned by calculate_esak once the spectrum question
is settled (none = no spectrum available, every access path failed). -/
def amEsak {σ : Type} (E : Engine σ) (P : ParamDict) (spec : Option σ) : ℚ :=
  match spec with
  | some s =>
    match esakTry E s P with
    | some v => v.1
    | none => 0
  | none => 0

/-- The beam_quality dict returned by calculate_beam_quality_parameters
once the spectrum question is settled. -/
def amBq {σ : Type} (E : Engine σ) (spec : Option σ) : RDict :=
  match spec with
  | some s =>
    match bqTry E s with
    | some q => bqList q
    | none => []
  | none => []

/-- The bsf value stored by calculate_bsf (none when nothing is stored:
unavailable import, no spectrum, missing file or an exception). -/
def amBsfStored {σ : Type} (E : Engine σ) (bd : Option BsfTable) (P : ParamDict)
    (spec : Option σ) : Option ℚ :=
  match spec with
  | some s => if E.spAvailable = true then bsfTry E bd s P else none
  | none => none

/-- The results-dict writes performed by one calculate_esak call. -/
def esakWrites {σ : Type} (E : Engine σ) (s : σ) (P : ParamDict) (r : RDict) : RDict :=
  match esakTry E s P with
  | some v =>
    dictSet (dictSet (dictSet r "esak_mgy" (RVal.num v.1))
      "kerma_per_mas_ugy" (RVal.num v.2.1)) "distance_correction" (RVal.num v.2.2)
  | none => r

/-- The results-dict writes performed by one calculate_bsf call. -/
def bsfWrites {σ : Type} (E : Engine σ) (bd : Option BsfTable) (s : σ) (P : ParamDict)
    (r : RDict) : RDict :=
  match amBsfStored E bd P (some s) with
  | some b => dictSet r "bsf" (RVal.num b)
  | none => r

/-- The value calculate_bsf returns once the spectrum question is
settled. -/
def amBsfReturn {σ : Type} (E : Engine σ) (bd : Option BsfTable) (P : ParamDict)
    (spec : Option σ) : ℚ :=
  match amBsfStored E bd P spec with
  | some b => b
  | none => 1

/-- Everything after the parameters entry of the dict built by
calculate_all_metrics, as a function of the engine, the data file, the
parameter dict, the effective spectrum and the previously stored bsf
entry. -/
def amTail {σ : Type} (E : Engine σ) (bd : Option BsfTable) (P : ParamDict)
    (spec : Option σ) (bsfPrev : Option RVal) : RDict :=
  let esak := amEsak E P spec
  let baseT : RDict :=
    ("esak_mgy", RVal.num esak) :: amBq E spec ++
      [("calculation_notes", RVal.notes calcNotesBase)]
  match P.field_size_cm with
  | some _ =>
    let keyRead : Option RVal :=
      match amBsfStored E bd P spec with
      | some b => some (RVal.num b)
      | none => bsfPrev
    let bsf_value : ℚ :=
      match keyRead with
      | some (RVal.num b) => b
      | _ => 1
    let r1 := dictSet baseT "esak_with_bsf_mgy" (RVal.num (esak * amBsfReturn E bd P spec))
    let r2 := dictSet r1 "bsf" (RVal.num bsf_value)
    setNote r2 "bsf_note"
      (NoteV.str ("BSF correction applied for field size: " ++ fmtQ bsf_value))
  | none =>
    let r2 := dictSet baseT "bsf" (RVal.num 1)
    setNote r2 "bsf_note" (NoteV.str "BSF = 1.0 (no field size specified)")

/-- The dict built by calculate_all_metrics, in closed form. -/
def amResult {σ : Type} (E : Engine σ) (bd : Option BsfTable) (P : ParamDict)
    (spec : Option σ) (bsfPrev : Option RVal) : RDict :=
  ("parameters", RVal.params P) :: amTail E bd P spec bsfPrev

/-- Everything after the parameters entry of the dict built by
calculate_all_metrics when the first generation attempt failed midway
through filtration leaving a spectrum s behind: the esak_mgy entry is 0
(the first calculate_esak call failed) while the later entries use the
values the leftover spectrum produces. -/
def amTailPartial {σ : Type} (E : Engine σ) (bd : Option BsfTable) (P : ParamDict)
    (s : σ) (bsfPrev : Option RVal) : RDict :=
  let esak := amEsak E P (some s)
  let baseT : RDict :=
    ("esak_mgy", RVal.num 0) :: amBq E (some s) ++
      [("calculation_notes", RVal.notes calcNotesBase)]
  match P.field_size_cm with
  | some _ =>
    let keyRead : Option RVal :=
      match amBsfStored E bd P (some s) with
      | some b => some (RVal.num b)
      | none => bsfPrev
    let bsf_value : ℚ :=
      match keyRead with
      | some (RVal.num b) => b
      | _ => 1
    let r1 := dictSet baseT "esak_with_bsf_mgy"
      (RVal.num (esak * amBsfReturn E bd P (some s)))
    let r2 := dictSet r1 "bsf" (RVal.num bsf_value)
    setNote r2 "bsf_note"
      (NoteV.str ("BSF correction applied for field size: " ++ fmtQ bsf_value))
  | none =>
    let r2 := dictSet baseT "bsf" (RVal.num 1)
    setNote r2 "bsf_note" (NoteV.str "BSF = 1.0 (no field size specified)")

/-- A calculator state carrying an Al filter and a zero-thickness Cu
filter. -/
def demoStateZ : CalcState Unit := add_filtration "Cu" 0 (add_filtration "Al" (5 / 2) demoState)

/-- The same state with the zero-thickness entry removed. -/
def demoStateZ2 : CalcState Unit :=
  { demoStateZ with parameters :=
      { demoStateZ.parameters with filters := some ([⟨"Al", 5 / 2⟩] ++ []) } }

/-! ## Lemmas about the Python-dict model -/

theorem dictGet_dictSet_self {α : Type} (d : List (String × α)) (k : String) (v : α) :
    dictGet (dictSet d k v) k = some v := by
  induction d with
  | nil => simp [dictGet, dictSet]
  | cons kv rest ih =>
    by_cases h : kv.1 = k
    · simp [dictSet, h, dictGet]
    · simp [dictSet, h, dictGet, ih]

theorem dictGet_dictSet_ne {α : Type} (d : List (String × α)) (k k2 : String) (v : α)
    (h : k ≠ k2) : dictGet (dictSet d k v) k2 = dictGet d k2 := by
  induction d with
  | nil => simp [dictGet, dictSet, h]
  | cons kv rest ih =>
    by_cases h2 : kv.1 = k
    · simp [dictSet, h2, dictGet, h, ih]
    · simp [dictSet, h2, dictGet, ih]

theorem dictGet_cons_ne {α : Type} (a : String) (b : α) (r : List (String × α))
    (k : String) (h : a ≠ k) : dictGet ((a, b) :: r) k = dictGet r k := by
  simp [dictGet, h]

theorem dictSet_cons_ne {α : Type} (a : String) (b : α) (r : List (String × α))
    (k : String) (v : α) (h : a ≠ k) : dictSet ((a, b) :: r) k v = (a, b) :: dictSet r k v := by
  simp [dictSet, h]

theorem setNote_cons_ne (a : String) (b : RVal) (r : RDict) (key : String) (v : NoteV)
    (h : a ≠ "calculation_notes") :
    setNote ((a, b) :: r) key v = (a, b) :: setNote r key v := by
  simp [setNote, h]

theorem dictGet_setNote_ne (r : RDict) (key : String) (v : NoteV) (k : String)
    (h : k ≠ "calculation_notes") : dictGet (setNote r key v) k = dictGet r k := by
  induction r with
  | nil => rfl
  | cons kv rest ih =>
    obtain ⟨a, b⟩ := kv
    by_cases h2 : a = "calculation_notes"
    · subst h2
      have hk : ("calculation_notes" : String) ≠ k := fun hh => h hh.symm
      simp only [setNote, List.map_cons] at ih ⊢
      simp [dictGet, hk, ih]
    · simp only [setNote, List.map_cons] at ih ⊢
      simp only [if_neg h2, dictGet]
      by_cases hk : a = k
      · simp [hk]
      · simp [hk, ih]

theorem dictGet_foldl_dictSet {α : Type} (l : List (String × α)) (r : List (String × α))
    (k : String) (h : ∀ kv ∈ l, kv.1 ≠ k) :
    dictGet (l.foldl (fun r2 kv => dictSet r2 kv.1 kv.2) r) k = dictGet r k := by
  induction l generalizing r with
  | nil => rfl
  | cons kv rest ih =>
    simp only [List.foldl_cons]
    rw [ih _ (fun x hx => h x (List.mem_cons_of_mem _ hx)),
      dictGet_dictSet_ne _ _ _ _ (h kv (List.mem_cons_self _ _))]

/-! ## Spectrum-guard lemmas -/

theorem ensureSpectrum_some {σ α : Type} (E : Engine σ) (st : CalcState σ) (s : σ)
    (body : CalcState σ → α × CalcState σ) (fb : α) (hs : st.spectrum = some s) :
    ensureSpectrum E st body fb = body st := by
  unfold ensureSpectrum
  rw [hs]

theorem ensureSpectrum_gen_ok {σ α : Type} (E : Engine σ) (st st2 : CalcState σ)
    (body : CalcState σ → α × CalcState σ) (fb : α)
    (hs : st.spectrum = none) (hg : generate_spectrum E st = (true, st2)) :
    ensureSpectrum E st body fb = body st2 := by
  unfold ensureSpectrum
  rw [hs, hg]

theorem ensureSpectrum_gen_fail {σ α : Type} (E : Engine σ) (st st2 : CalcState σ)
    (body : CalcState σ → α × CalcState σ) (fb : α)
    (hs : st.spectrum = none) (hg : generate_spectrum E st = (false, st2)) :
    ensureSpectrum E st body fb = (fb, st2) := by
  unfold ensureSpectrum
  rw [hs, hg]

theorem generate_spectrum_ok {σ : Type} (E : Engine σ) (st : CalcState σ) (s : σ)
    (hav : E.spAvailable = true) (hne : st.parameters ≠ ParamDict.empty)
    (hg : genTry E st.parameters = Except.ok s) :
    generate_spectrum E st = (true, { st with spectrum := some s }) := by
  unfold generate_spectrum
  simp [hav, hne, hg]

theorem generate_spectrum_fail_id {σ : Type} (E : Engine σ) (st : CalcState σ)
    (h : E.spAvailable = false ∨ st.parameters = ParamDict.empty ∨
      genTry E st.parameters = Except.error none) :
    generate_spectrum E st = (false, st) := by
  unfold generate_spectrum
  by_cases hav : E.spAvailable = false
  · simp [hav]
  · rcases h with h | h | h
    · exact absurd h hav
    · simp [hav, h]
    · by_cases he : st.parameters = ParamDict.empty
      · simp [hav, he]
      · simp [hav, he, h]

theorem genTry_fail {σ : Type} (E : Engine σ) (P : ParamDict)
    (h : ∀ kvp th, ∃ e, E.Spek kvp th = Except.error e) :
    genTry E P = Except.error none := by
  unfold genTry
  cases hk : P.kvp with
  | none => rfl
  | some kvp =>
    cases ha : P.anode_angle with
    | none => rfl
    | some th =>
      obtain ⟨e, he⟩ := h kvp th
      simp [he]

/-! ## C1: the ESAK formula -/

/-- C1: for a parameter set with mas = ma * time_s and source-to-skin
distance ssd_cm, and a generated spectrum whose kerma query returns K (in
uGy per mAs), calculate_esak returns K * mas * (100 / ssd_cm)^2 / 1000 in
mGy (one uGy-to-mGy conversion, one inverse-square correction against the
100 cm reference) and stores this value under esak_mgy in the results
dict. -/
theorem calculate_esak_formula {σ : Type} (E : Engine σ) (st : CalcState σ) (s : σ)
    (K ma time_s ssd : ℚ)
    (hs : st.spectrum = some s)
    (hK : E.get_kerma s = Except.ok K)
    (hmas : st.parameters.mas = some (ma * time_s))
    (hssd : st.parameters.ssd_cm = some ssd)
    (h0 : ssd ≠ 0) :
    (calculate_esak E st).1 = K * (ma * time_s) * (100 / ssd) ^ 2 / 1000 ∧
    dictGet (calculate_esak E st).2.results "esak_mgy" =
      some (RVal.num (K * (ma * time_s) * (100 / ssd) ^ 2 / 1000)) := by
  have ht : esakTry E s st.parameters =
      some (K * (ma * time_s) * (100 / ssd) ^ 2 / 1000, K, (100 / ssd) ^ 2) := by
    unfold esakTry
    rw [hK, hmas, hssd]
    simp [h0]
  unfold calculate_esak
  rw [ensureSpectrum_some E st s _ _ hs]
  simp only [hs, ht]
  refine ⟨trivial, ?_⟩
  rw [dictGet_dictSet_ne _ _ _ _ (by decide), dictGet_dictSet_ne _ _ _ _ (by decide),
    dictGet_dictSet_self]

/-- Witness for C1 at a concrete engine and state. -/
theorem calculate_esak_formula_witness :
    (calculate_esak demoEngine demoStateSpek).1 =
      5 * (100 * (1 / 10)) * (100 / 100) ^ 2 / 1000 ∧
    dictGet (calculate_esak demoEngine demoStateSpek).2.results "esak_mgy" =
      some (RVal.num (5 * (100 * (1 / 10)) * (100 / 100) ^ 2 / 1000)) :=
  calculate_esak_formula demoEngine demoStateSpek () 5 100 (1 / 10) 100 rfl rfl rfl rfl
    (by norm_num)

/-! ## C10: set_clinical_parameters replaces the parameter dict -/

/-- C10: set_clinical_parameters replaces the whole parameter dict with
exactly the seven keys kvp, ma, time_s, mas, anode_angle, target_material
and ssd_cm; filters added by add_filtration and field parameters set by
set_field_parameters beforehand are discarded, so those two methods only
take effect when invoked after the last set_clinical_parameters call. -/
theorem set_clinical_parameters_replaces {σ : Type}
    (kvp ma time_s anode_angle : ℚ) (tm : String) (ssd : ℚ) (st : CalcState σ) :
    (set_clinical_parameters kvp ma time_s anode_angle tm ssd st).parameters =
      { kvp := some kvp, ma := some ma, time_s := some time_s,
        mas := some (ma * time_s), anode_angle := some anode_angle,
        target_material := some tm, ssd_cm := some ssd,
        filters := none, field_size_cm := none, phantom_material := none } ∧
    (∀ m t, set_clinical_parameters kvp ma time_s anode_angle tm ssd
        (add_filtration m t st) =
      set_clinical_parameters kvp ma time_s anode_angle tm ssd st) ∧
    (∀ fs pm, set_clinical_parameters kvp ma time_s anode_angle tm ssd
        (set_field_parameters fs pm st) =
      set_clinical_parameters kvp ma time_s anode_angle tm ssd st) :=
  ⟨rfl, fun _ _ => rfl, fun _ _ => rfl⟩

/-! ## C3: broad exception handling with neutral fallbacks -/

/-- C3: when the spectrum engine raises, or the import of the engine found
it missing, the public methods catch the error and return neutral
fallbacks: generate_spectrum returns false, calculate_esak 0.0,
calculate_bsf 1.0 and get_spectrum_data a pair of empty arrays; the
missing data file likewise makes calculate_bsf return 1.0 on every state.
All four embedded methods are total functions, so no exception escapes. -/
theorem error_fallbacks {σ : Type} (E : Engine σ) (bd : Option BsfTable)
    (st : CalcState σ)
    (hsp : st.spectrum = none)
    (hfail : E.spAvailable = false ∨ (∀ kvp th, ∃ e, E.Spek kvp th = Except.error e)) :
    (generate_spectrum E st).1 = false ∧
    (calculate_esak E st).1 = 0 ∧
    (calculate_bsf E bd st).1 = 1 ∧
    (get_spectrum_data E st).1 = ([], []) ∧
    (∀ st2 : CalcState σ, (calculate_bsf E none st2).1 = 1) := by
  have hgen : generate_spectrum E st = (false, st) := by
    rcases hfail with h | h
    · exact generate_spectrum_fail_id E st (Or.inl h)
    · exact generate_spectrum_fail_id E st (Or.inr (Or.inr (genTry_fail E _ h)))
  have hbsf_none : ∀ st2 : CalcState σ, (calculate_bsf E none st2).1 = 1 := by
    intro st2
    unfold calculate_bsf
    by_cases hav : E.spAvailable = false
    · simp [hav]
    · simp only [if_neg hav]
      cases hs2 : st2.spectrum with
      | some s =>
        rw [ensureSpectrum_some E st2 s _ _ hs2]
        simp [hs2, bsfTry]
      | none =>
        rcases hg : generate_spectrum E st2 with ⟨ok, st3⟩
        cases ok with
        | false =>
          rw [ensureSpectrum_gen_fail E st2 st3 _ _ hs2 hg]
        | true =>
          rw [ensureSpectrum_gen_ok E st2 st3 _ _ hs2 hg]
          cases hs3 : st3.spectrum with
          | some s => simp [hs3, bsfTry]
          | none => simp [hs3]
  refine ⟨by rw [hgen], ?_, ?_, ?_, hbsf_none⟩
  · unfold calculate_esak
    rw [ensureSpectrum_gen_fail E st st _ _ hsp hgen]
  · unfold calculate_bsf
    by_cases hav : E.spAvailable = false
    · simp [hav]
    · simp only [if_neg hav]
      rw [ensureSpectrum_gen_fail E st st _ _ hsp hgen]
  · unfold get_spectrum_data
    rw [ensureSpectrum_gen_fail E st st _ _ hsp hgen]

/-! ## Closed-form characterisation of the calculator pipeline -/

theorem calculate_esak_body {σ : Type} (E : Engine σ) (st : CalcState σ) (s : σ)
    (hs : st.spectrum = some s) :
    calculate_esak E st =
      (amEsak E st.parameters (some s),
       { st with results := esakWrites E s st.parameters st.results }) := by
  obtain ⟨sp, par, res⟩ := st
  simp only at hs
  subst hs
  unfold calculate_esak
  rw [ensureSpectrum_some E _ s _ _ rfl]
  unfold amEsak esakWrites
  cases he : esakTry E s par with
  | none => simp [he]
  | some v =>
    obtain ⟨a, b, c⟩ := v
    simp [he]

theorem calculate_bsf_body {σ : Type} (E : Engine σ) (bd : Option BsfTable)
    (st : CalcState σ) (s : σ) (hs : st.spectrum = some s) :
    calculate_bsf E bd st =
      (amBsfReturn E bd st.parameters (some s),
       { st with results := bsfWrites E bd s st.parameters st.results }) := by
  obtain ⟨sp, par, res⟩ := st
  simp only at hs
  subst hs
  unfold calculate_bsf amBsfReturn bsfWrites amBsfStored
  cases hav : E.spAvailable with
  | false => simp [hav]
  | true =>
    simp only [hav]
    rw [ensureSpectrum_some E _ s _ _ rfl]
    cases hb : bsfTry E bd s par with
    | none => simp [hb]
    | some b => simp [hb]

theorem calculate_bq_body {σ : Type} (E : Engine σ) (st : CalcState σ) (s : σ)
    (hs : st.spectrum = some s) :
    calculate_beam_quality_parameters E st =
      (amBq E (some s),
       { st with results :=
           (amBq E (some s)).foldl (fun r kv => dictSet r kv.1 kv.2) st.results }) := by
  obtain ⟨sp, par, res⟩ := st
  simp only at hs
  subst hs
  unfold calculate_beam_quality_parameters
  rw [ensureSpectrum_some E _ s _ _ rfl]
  unfold amBq
  cases hq : bqTry E s with
  | none => simp [hq]
  | some q => simp [hq]

theorem amBq_key_ne_bsf {σ : Type} (E : Engine σ) (spec : Option σ) :
    ∀ kv ∈ amBq E spec, kv.1 ≠ "bsf" := by
  intro kv h
  rcases spec with _ | s
  · simp [amBq] at h
  · rcases hq : bqTry E s with _ | q
    · simp [amBq, hq] at h
    · simp only [amBq, hq, bqList, List.mem_cons, List.not_mem_nil, or_false] at h
      rcases h with rfl | rfl | rfl | rfl | rfl | rfl | rfl | rfl <;> simp

theorem dictGet_esakWrites_ne {σ : Type} (E : Engine σ) (s : σ) (P : ParamDict)
    (r : RDict) (k : String) (h1 : k ≠ "esak_mgy") (h2 : k ≠ "kerma_per_mas_ugy")
    (h3 : k ≠ "distance_correction") :
    dictGet (esakWrites E s P r) k = dictGet r k := by
  unfold esakWrites
  cases esakTry E s P with
  | none => rfl
  | some v =>
    rw [dictGet_dictSet_ne _ _ _ _ (fun hh => h3 hh.symm),
      dictGet_dictSet_ne _ _ _ _ (fun hh => h2 hh.symm),
      dictGet_dictSet_ne _ _ _ _ (fun hh => h1 hh.symm)]

theorem calculate_esak_with_bsf_body {σ : Type} (E : Engine σ) (bd : Option BsfTable)
    (st : CalcState σ) (s : σ) (hs : st.spectrum = some s) :
    calculate_esak_with_bsf E bd st =
      match st.parameters.field_size_cm with
      | some _ =>
        (amEsak E st.parameters (some s) * amBsfReturn E bd st.parameters (some s),
         { st with results :=
            (dictSet (bsfWrites E bd s st.parameters (esakWrites E s st.parameters st.results))
              "esak_with_bsf_mgy"
              (RVal.num (amEsak E st.parameters (some s) *
                amBsfReturn E bd st.parameters (some s)))) })
      | none =>
        (amEsak E st.parameters (some s),
         { st with results := esakWrites E s st.parameters st.results }) := by
  obtain ⟨sp, par, res⟩ := st
  simp only at hs
  subst hs
  unfold calculate_esak_with_bsf
  rw [calculate_esak_body E _ s rfl]
  dsimp only
  cases hf : par.field_size_cm with
  | none => simp [hf]
  | some fs =>
    rw [calculate_bsf_body E bd _ s rfl]

theorem calculate_all_metrics_body {σ : Type} (E : Engine σ) (bd : Option BsfTable)
    (st : CalcState σ) (s : σ) (hs : st.spectrum = some s) :
    calculate_all_metrics E bd st =
      (amResult E bd st.parameters (some s) (dictGet st.results "bsf"),
       { st with results := amResult E bd st.parameters (some s) (dictGet st.results "bsf") }) := by
  obtain ⟨sp, par, res⟩ := st
  simp only at hs
  subst hs
  unfold calculate_all_metrics
  rw [calculate_esak_body E _ s rfl]
  dsimp only
  rw [calculate_esak_with_bsf_body E bd _ s rfl]
  dsimp only
  cases hf : par.field_size_cm with
  | none =>
    simp only [hf]
    rw [calculate_bq_body E _ s rfl]
    dsimp only
    simp only [hf, amResult, amTail, List.cons_append, List.nil_append]
    rw [dictSet_cons_ne _ _ _ _ _ (by decide), setNote_cons_ne _ _ _ _ _ (by decide)]
  | some fs =>
    simp only [hf]
    rw [calculate_bq_body E _ s rfl]
    dsimp only
    have hread : dictGet ((amBq E (some s)).foldl (fun r kv => dictSet r kv.1 kv.2)
        (dictSet (bsfWrites E bd s par (esakWrites E s par (esakWrites E s par res)))
          "esak_with_bsf_mgy"
          (RVal.num (amEsak E par (some s) * amBsfReturn E bd par (some s))))) "bsf" =
        (match amBsfStored E bd par (some s) with
         | some b => some (RVal.num b)
         | none => dictGet res "bsf") := by
      rw [dictGet_foldl_dictSet _ _ _ (amBq_key_ne_bsf E (some s)),
        dictGet_dictSet_ne _ _ _ _ (by decide)]
      unfold bsfWrites
      cases hbs : amBsfStored E bd par (some s) with
      | some b =>
        dsimp only
        rw [dictGet_dictSet_self]
      | none =>
        dsimp only
        rw [dictGet_esakWrites_ne _ _ _ _ _ (by decide) (by decide) (by decide),
          dictGet_esakWrites_ne _ _ _ _ _ (by decide) (by decide) (by decide)]
    rw [hread]
    simp only [amResult, amTail, hf, List.cons_append, List.nil_append]
    rw [dictSet_cons_ne _ _ _ _ _ (by decide), dictSet_cons_ne _ _ _ _ _ (by decide),
      setNote_cons_ne _ _ _ _ _ (by decide)]

theorem generate_spectrum_fail_inv {σ : Type} (E : Engine σ) (st : CalcState σ)
    (hsp : st.spectrum = none) (hg : generate_spectrum E st = (false, st)) :
    E.spAvailable = false ∨ st.parameters = ParamDict.empty ∨
      genTry E st.parameters = Except.error none := by
  by_cases hav : E.spAvailable = false
  · exact Or.inl hav
  by_cases hem : st.parameters = ParamDict.empty
  · exact Or.inr (Or.inl hem)
  refine Or.inr (Or.inr ?_)
  unfold generate_spectrum at hg
  rw [if_neg hav, if_neg hem] at hg
  cases hgt : genTry E st.parameters with
  | ok s =>
    rw [hgt] at hg
    simpa using congrArg Prod.fst hg
  | error o =>
    cases o with
    | none => rfl
    | some s =>
      rw [hgt] at hg
      have h2 := congrArg (fun p => p.2.spectrum) hg
      simp only at h2
      rw [hsp] at h2
      cases h2

theorem generate_spectrum_fail_transfer {σ : Type} (E : Engine σ) (st st2 : CalcState σ)
    (hsp : st.spectrum = none) (hg : generate_spectrum E st = (false, st))
    (hp : st2.parameters = st.parameters) :
    generate_spectrum E st2 = (false, st2) := by
  apply generate_spectrum_fail_id
  rcases generate_spectrum_fail_inv E st hsp hg with h | h | h
  · exact Or.inl h
  · exact Or.inr (Or.inl (hp.trans h))
  · refine Or.inr (Or.inr ?_)
    rw [hp]
    exact h

theorem generate_spectrum_true {σ : Type} (E : Engine σ) (st : CalcState σ)
    (h : (generate_spectrum E st).1 = true) :
    ∃ s, genTry E st.parameters = Except.ok s ∧ E.spAvailable = true ∧
      st.parameters ≠ ParamDict.empty ∧
      generate_spectrum E st = (true, { st with spectrum := some s }) := by
  have hcopy := h
  unfold generate_spectrum at hcopy
  by_cases hav : E.spAvailable = false
  · rw [if_pos hav] at hcopy
    cases hcopy
  have hav2 : E.spAvailable = true := by
    cases hAv3 : E.spAvailable with
    | false => exact absurd hAv3 hav
    | true => rfl
  by_cases hem : st.parameters = ParamDict.empty
  · rw [if_neg hav, if_pos hem] at hcopy
    cases hcopy
  cases hgt : genTry E st.parameters with
  | ok s => exact ⟨s, rfl, hav2, hem, generate_spectrum_ok E st s hav2 hem hgt⟩
  | error o =>
    rw [if_neg hav, if_neg hem, hgt] at hcopy
    cases o <;> cases hcopy

theorem generate_spectrum_partial {σ : Type} (E : Engine σ) (st : CalcState σ) (s : σ)
    (hav : E.spAvailable = true) (hne : st.parameters ≠ ParamDict.empty)
    (hg : genTry E st.parameters = Except.error (some s)) :
    generate_spectrum E st = (false, { st with spectrum := some s }) := by
  unfold generate_spectrum
  simp [hav, hne, hg]

theorem calculate_all_metrics_gen {σ : Type} (E : Engine σ) (bd : Option BsfTable)
    (st st2 : CalcState σ) (s : σ) (hs : st.spectrum = none)
    (hg : generate_spectrum E st = (true, st2)) (hs2 : st2.spectrum = some s) :
    calculate_all_metrics E bd st = calculate_all_metrics E bd st2 := by
  have he : calculate_esak E st = calculate_esak E st2 := by
    unfold calculate_esak
    rw [ensureSpectrum_gen_ok E st st2 _ _ hs hg, ensureSpectrum_some E st2 s _ _ hs2]
  unfold calculate_all_metrics
  rw [he]

theorem calculate_all_metrics_nospec {σ : Type} (E : Engine σ) (bd : Option BsfTable)
    (st : CalcState σ) (hs : st.spectrum = none)
    (hg : generate_spectrum E st = (false, st)) :
    calculate_all_metrics E bd st =
      (amResult E bd st.parameters none (dictGet st.results "bsf"),
       { st with results := amResult E bd st.parameters none (dictGet st.results "bsf") }) := by
  obtain ⟨sp, par, res⟩ := st
  simp only at hs
  subst hs
  have he : calculate_esak E ⟨none, par, res⟩ = (0, ⟨none, par, res⟩) := by
    unfold calculate_esak
    rw [ensureSpectrum_gen_fail E _ _ _ _ rfl hg]
  have hb : calculate_bsf E bd ⟨none, par, res⟩ = (1, ⟨none, par, res⟩) := by
    unfold calculate_bsf
    by_cases hav : E.spAvailable = false
    · simp [hav]
    · simp only [if_neg hav]
      rw [ensureSpectrum_gen_fail E _ _ _ _ rfl hg]
  unfold calculate_all_metrics
  rw [he]
  dsimp only
  unfold calculate_esak_with_bsf
  rw [he]
  dsimp only
  cases hf : par.field_size_cm with
  | none =>
    have hq : calculate_beam_quality_parameters E ⟨none, par, res⟩ =
        ([], ⟨none, par, res⟩) := by
      unfold calculate_beam_quality_parameters
      rw [ensureSpectrum_gen_fail E _ _ _ _ rfl hg]
    rw [hq]
    dsimp only
    simp only [hf, amResult, amTail, amEsak, amBq, List.cons_append, List.nil_append]
    rw [dictSet_cons_ne _ _ _ _ _ (by decide), setNote_cons_ne _ _ _ _ _ (by decide)]
  | some fs =>
    rw [hb]
    dsimp only
    have hg2 : generate_spectrum E
        ⟨none, par, dictSet res "esak_with_bsf_mgy" (RVal.num (0 * 1))⟩ =
        (false, ⟨none, par, dictSet res "esak_with_bsf_mgy" (RVal.num (0 * 1))⟩) :=
      generate_spectrum_fail_transfer E _ _ rfl hg rfl
    have hq : calculate_beam_quality_parameters E
        ⟨none, par, dictSet res "esak_with_bsf_mgy" (RVal.num (0 * 1))⟩ =
        ([], ⟨none, par, dictSet res "esak_with_bsf_mgy" (RVal.num (0 * 1))⟩) := by
      unfold calculate_beam_quality_parameters
      rw [ensureSpectrum_gen_fail E _ _ _ _ rfl hg2]
    rw [hq]
    dsimp only
    rw [show dictGet (dictSet res "esak_with_bsf_mgy" (RVal.num (0 * 1))) "bsf" =
      dictGet res "bsf" from dictGet_dictSet_ne _ _ _ _ (by decide)]
    simp only [hf, amResult, amTail, amEsak, amBq, amBsfStored, amBsfReturn,
      List.cons_append, List.nil_append]
    rw [dictSet_cons_ne _ _ _ _ _ (by decide), dictSet_cons_ne _ _ _ _ _ (by decide),
      setNote_cons_ne _ _ _ _ _ (by decide)]

theorem amResult_stable {σ : Type} (E : Engine σ) (bd : Option BsfTable) (P : ParamDict)
    (spec : Option σ) (prev : Option RVal) :
    amResult E bd P spec (dictGet (amResult E bd P spec prev) "bsf") =
      amResult E bd P spec prev := by
  unfold amResult amTail
  cases hf : P.field_size_cm with
  | none => rfl
  | some fs =>
    cases hb : amBsfStored E bd P spec with
    | some b => simp [hb]
    | none =>
      simp only [hb]
      rw [dictGet_cons_ne _ _ _ _ (by decide), dictGet_setNote_ne _ _ _ _ (by decide),
        dictGet_dictSet_self]

theorem amResult_get_esak {σ : Type} (E : Engine σ) (bd : Option BsfTable) (P : ParamDict)
    (spec : Option σ) (prev : Option RVal) :
    dictGet (amResult E bd P spec prev) "esak_mgy" =
      some (RVal.num (amEsak E P spec)) := by
  unfold amResult amTail
  cases hf : P.field_size_cm with
  | none =>
    rw [dictGet_cons_ne _ _ _ _ (by decide), dictGet_setNote_ne _ _ _ _ (by decide),
      dictGet_dictSet_ne _ _ _ _ (by decide)]
    simp [dictGet]
  | some fs =>
    rw [dictGet_cons_ne _ _ _ _ (by decide), dictGet_setNote_ne _ _ _ _ (by decide),
      dictGet_dictSet_ne _ _ _ _ (by decide), dictGet_dictSet_ne _ _ _ _ (by decide)]
    simp [dictGet]

/-- When spectrum generation fails after the spectrum object was created
(a filter raised), the first calculate_all_metrics call reports esak 0 but
leaves the partially filtered spectrum behind on the instance. -/
theorem calculate_all_metrics_partial {σ : Type} (E : Engine σ) (bd : Option BsfTable)
    (st st2 : CalcState σ) (s : σ)
    (hs : st.spectrum = none) (hg : generate_spectrum E st = (false, st2))
    (hs2 : st2.spectrum = some s) (hp : st2.parameters = st.parameters) :
    ∃ R, calculate_all_metrics E bd st = (R, { st2 with results := R }) ∧
      dictGet R "esak_mgy" = some (RVal.num 0) := by
  obtain ⟨sp2, par2, res2⟩ := st2
  simp only at hs2 hp
  subst hs2
  subst hp
  have he : calculate_esak E st = (0, ⟨some s, st.parameters, res2⟩) := by
    unfold calculate_esak
    rw [ensureSpectrum_gen_fail E _ _ _ _ hs hg]
  unfold calculate_all_metrics
  rw [he]
  dsimp only
  rw [calculate_esak_with_bsf_body E bd _ s rfl]
  dsimp only
  cases hf : st.parameters.field_size_cm with
  | none =>
    simp only [hf]
    rw [calculate_bq_body E _ s rfl]
    dsimp only
    simp only [hf]
    refine ⟨_, rfl, ?_⟩
    rw [dictGet_setNote_ne _ _ _ _ (by decide), dictGet_dictSet_ne _ _ _ _ (by decide)]
    simp [dictGet, List.cons_append]
  | some fs =>
    simp only [hf]
    rw [calculate_bq_body E _ s rfl]
    dsimp only
    simp only [hf]
    refine ⟨_, rfl, ?_⟩
    rw [dictGet_setNote_ne _ _ _ _ (by decide), dictGet_dictSet_ne _ _ _ _ (by decide),
      dictGet_dictSet_ne _ _ _ _ (by decide)]
    simp [dictGet, List.cons_append]

theorem amResult_get_hvl1 {σ : Type} (E : Engine σ) (bd : Option BsfTable) (P : ParamDict)
    (s : σ) (prev : Option RVal) (q : BeamQuality) (hq : bqTry E s = some q) :
    dictGet (amResult E bd P (some s) prev) "hvl1_al_mm" =
      some (RVal.num q.hvl1_al_mm) := by
  unfold amResult amTail amBq
  dsimp only
  rw [hq]
  cases hf : P.field_size_cm with
  | none =>
    rw [dictGet_cons_ne _ _ _ _ (by decide), dictGet_setNote_ne _ _ _ _ (by decide),
      dictGet_dictSet_ne _ _ _ _ (by decide)]
    simp [dictGet, bqList, List.cons_append]
  | some fs =>
    rw [dictGet_cons_ne _ _ _ _ (by decide), dictGet_setNote_ne _ _ _ _ (by decide),
      dictGet_dictSet_ne _ _ _ _ (by decide), dictGet_dictSet_ne _ _ _ _ (by decide)]
    simp [dictGet, bqList, List.cons_append]

theorem calculate_all_metrics_partial_full {σ : Type} (E : Engine σ) (bd : Option BsfTable)
    (st : CalcState σ) (s : σ)
    (hs : st.spectrum = none)
    (hg : generate_spectrum E st = (false, { st with spectrum := some s })) :
    calculate_all_metrics E bd st =
      (("parameters", RVal.params st.parameters) ::
        amTailPartial E bd st.parameters s (dictGet st.results "bsf"),
       { spectrum := some s, parameters := st.parameters,
         results := ("parameters", RVal.params st.parameters) ::
           amTailPartial E bd st.parameters s (dictGet st.results "bsf") }) := by
  obtain ⟨sp, par, res⟩ := st
  simp only at hs
  subst hs
  have he : calculate_esak E ⟨none, par, res⟩ = (0, ⟨some s, par, res⟩) := by
    unfold calculate_esak
    rw [ensureSpectrum_gen_fail E _ _ _ _ rfl hg]
  unfold calculate_all_metrics
  rw [he]
  dsimp only
  rw [calculate_esak_with_bsf_body E bd _ s rfl]
  dsimp only
  cases hf : par.field_size_cm with
  | none =>
    simp only [hf]
    rw [calculate_bq_body E _ s rfl]
    dsimp only
    simp only [hf, amTailPartial, List.cons_append, List.nil_append]
    rw [dictSet_cons_ne _ _ _ _ _ (by decide), setNote_cons_ne _ _ _ _ _ (by decide)]
  | some fs =>
    simp only [hf]
    rw [calculate_bq_body E _ s rfl]
    dsimp only
    have hread : dictGet ((amBq E (some s)).foldl (fun r kv => dictSet r kv.1 kv.2)
        (dictSet (bsfWrites E bd s par (esakWrites E s par res)) "esak_with_bsf_mgy"
          (RVal.num (amEsak E par (some s) * amBsfReturn E bd par (some s))))) "bsf" =
        (match amBsfStored E bd par (some s) with
         | some b => some (RVal.num b)
         | none => dictGet res "bsf") := by
      rw [dictGet_foldl_dictSet _ _ _ (amBq_key_ne_bsf E (some s)),
        dictGet_dictSet_ne _ _ _ _ (by decide)]
      unfold bsfWrites
      cases hbs : amBsfStored E bd par (some s) with
      | some b =>
        dsimp only
        rw [dictGet_dictSet_self]
      | none =>
        dsimp only
        rw [dictGet_esakWrites_ne _ _ _ _ _ (by decide) (by decide) (by decide)]
    rw [hread]
    simp only [amTailPartial, hf, List.cons_append, List.nil_append]
    rw [dictSet_cons_ne _ _ _ _ _ (by decide), dictSet_cons_ne _ _ _ _ _ (by decide),
      setNote_cons_ne _ _ _ _ _ (by decide)]

/-! ## C2: the spectrum-weighted backscatter factor -/

theorem prodL_cons (x y : ℚ) (a b : List ℚ) :
    prodL (x :: a) (y :: b) = (x * y) :: prodL a b := rfl

theorem sumQ_cons (x : ℚ) (l : List ℚ) : sumQ (x :: l) = x + sumQ l := rfl

theorem sumQ_prod3 (a : List ℚ) : ∀ b c : List ℚ,
    sumQ (prodL (prodL a b) c) =
      ∑ i ∈ Finset.range a.length, a.getD i 0 * b.getD i 0 * c.getD i 0 := by
  induction a with
  | nil => intro b c; simp [sumQ, prodL]
  | cons x t ih =>
    intro b c
    cases b with
    | nil => simp [sumQ, prodL]
    | cons y bt =>
      cases c with
      | nil => simp [sumQ, prodL]
      | cons z ct =>
        rw [prodL_cons, prodL_cons, sumQ_cons, List.length_cons, Finset.sum_range_succ']
        simp only [List.getD_cons_succ, List.getD_cons_zero]
        rw [ih bt ct]
        exact (add_comm _ _)

theorem sumQ_prod4 (f : ℚ → ℚ) (a : List ℚ) : ∀ b c : List ℚ,
    sumQ (prodL (prodL (prodL a b) c) (a.map f)) =
      ∑ i ∈ Finset.range a.length,
        a.getD i 0 * b.getD i 0 * c.getD i 0 * f (a.getD i 0) := by
  induction a with
  | nil => intro b c; simp [sumQ, prodL]
  | cons x t ih =>
    intro b c
    cases b with
    | nil => simp [sumQ, prodL]
    | cons y bt =>
      cases c with
      | nil => simp [sumQ, prodL]
      | cons z ct =>
        rw [List.map_cons, prodL_cons, prodL_cons, prodL_cons, sumQ_cons, List.length_cons,
          Finset.sum_range_succ']
        simp only [List.getD_cons_succ, List.getD_cons_zero]
        rw [ih bt ct]
        exact (add_comm _ _)

theorem gridLocate_none_of_lt_head (g : List ℚ) (x a : ℚ)
    (hh : g.head? = some a) (hx : x < a) : gridLocate g x = none := by
  cases g with
  | nil => rfl
  | cons a0 t =>
    have ha : a = a0 := by
      simp only [List.head?_cons] at hh
      exact (Option.some.inj hh).symm
    subst ha
    cases t with
    | nil => rfl
    | cons b t2 => simp [gridLocate, hx]

theorem chain_head_le_last : ∀ (b : ℚ) (t : List ℚ), List.Chain' (· ≤ ·) (b :: t) →
    ∀ a, (b :: t).getLast? = some a → b ≤ a
  | b, [], _, a, hl => by
    simp only [List.getLast?_singleton] at hl
    exact (Option.some.inj hl) ▸ le_refl b
  | b, c :: t2, hc, a, hl => by
    have h1 : b ≤ c := (List.chain'_cons.mp hc).1
    have h2 := chain_head_le_last c t2 (List.chain'_cons.mp hc).2 a
      (by simpa using hl)
    exact h1.trans h2

theorem gridLocate_none_of_gt_last : ∀ (g : List ℚ) (x a : ℚ),
    List.Chain' (· ≤ ·) g → g.getLast? = some a → a < x → gridLocate g x = none
  | [], x, a, _, hl, _ => by cases hl
  | [a0], x, a, _, hl, hx => rfl
  | a0 :: b :: t, x, a, hc, hl, hx => by
    have hcb : List.Chain' (· ≤ ·) (b :: t) := (List.chain'_cons.mp hc).2
    have ha0b : a0 ≤ b := (List.chain'_cons.mp hc).1
    have hl2 : (b :: t).getLast? = some a := by simpa using hl
    have hba := chain_head_le_last b t hcb a hl2
    have h1 : ¬x < a0 := not_lt.mpr (le_of_lt (lt_of_le_of_lt (ha0b.trans hba) hx))
    have h2 : ¬x ≤ b := not_le.mpr (lt_of_le_of_lt hba hx)
    have h3 := gridLocate_none_of_gt_last (b :: t) x a hcb hl2 hx
    simp [gridLocate, h1, h2, h3]

/-- C2: for a generated spectrum and an available data file, calculate_bsf
returns the spectrum-weighted backscatter factor
sum(k phi muen B) / sum(k phi muen), with B the multilinear interpolation
of the 3-D table queried at (ssd, k, field diameter); and on every axis a
query point outside the table bounds makes the interpolant return the
neutral fill value 1.0 instead of raising. -/
theorem calculate_bsf_formula {σ : Type} (E : Engine σ) (table : BsfTable)
    (st : CalcState σ) (s : σ) (k phi muen : List ℚ)
    (hav : E.spAvailable = true)
    (hs : st.spectrum = some s)
    (hsp : E.get_spectrum s = Except.ok (k, phi))
    (hmu : E.get_muen_over_rho_air k = Except.ok muen)
    (hl1 : phi.length = k.length) (hl2 : muen.length = k.length)
    (hden : 0 < ∑ i ∈ Finset.range k.length,
      k.getD i 0 * phi.getD i 0 * muen.getD i 0) :
    (calculate_bsf E (some table) st).1 =
      (∑ i ∈ Finset.range k.length, k.getD i 0 * phi.getD i 0 * muen.getD i 0 *
        interp3 table 1 (st.parameters.ssd_cm.getD 100) (k.getD i 0)
          (st.parameters.field_size_cm.getD 10)) /
      (∑ i ∈ Finset.range k.length, k.getD i 0 * phi.getD i 0 * muen.getD i 0) ∧
    (∀ x y z a, List.Chain' (· ≤ ·) table.SSD →
      ((table.SSD.head? = some a ∧ x < a) ∨ (table.SSD.getLast? = some a ∧ a < x)) →
      interp3 table 1 x y z = 1) ∧
    (∀ x y z a, List.Chain' (· ≤ ·) table.k →
      ((table.k.head? = some a ∧ y < a) ∨ (table.k.getLast? = some a ∧ a < y)) →
      interp3 table 1 x y z = 1) ∧
    (∀ x y z a, List.Chain' (· ≤ ·) table.D →
      ((table.D.head? = some a ∧ z < a) ∨ (table.D.getLast? = some a ∧ a < z)) →
      interp3 table 1 x y z = 1) := by
  refine ⟨?_, ?_, ?_, ?_⟩
  · have hb : bsfTry E (some table) s st.parameters =
        some ((∑ i ∈ Finset.range k.length, k.getD i 0 * phi.getD i 0 * muen.getD i 0 *
          interp3 table 1 (st.parameters.ssd_cm.getD 100) (k.getD i 0)
            (st.parameters.field_size_cm.getD 10)) /
        (∑ i ∈ Finset.range k.length, k.getD i 0 * phi.getD i 0 * muen.getD i 0)) := by
      unfold bsfTry
      rw [hsp]
      dsimp only
      rw [hmu]
      dsimp only
      rw [if_pos ⟨hl1, hl2⟩]
      rw [sumQ_prod4, sumQ_prod3]
      rw [if_pos hden]
    rw [calculate_bsf_body E (some table) st s hs, amBsfReturn, amBsfStored]
    rw [if_pos hav, hb]
  · intro x y z a hc hcase
    have hx : gridLocate table.SSD x = none := by
      rcases hcase with ⟨hh, hlt⟩ | ⟨hh, hlt⟩
      · exact gridLocate_none_of_lt_head _ _ _ hh hlt
      · exact gridLocate_none_of_gt_last _ _ _ hc hh hlt
    unfold interp3
    rw [hx]
  · intro x y z a hc hcase
    have hy : gridLocate table.k y = none := by
      rcases hcase with ⟨hh, hlt⟩ | ⟨hh, hlt⟩
      · exact gridLocate_none_of_lt_head _ _ _ hh hlt
      · exact gridLocate_none_of_gt_last _ _ _ hc hh hlt
    unfold interp3
    rw [hy]
    cases gridLocate table.SSD x with
    | none => rfl
    | some p => rfl
  · intro x y z a hc hcase
    have hz2 : gridLocate table.D z = none := by
      rcases hcase with ⟨hh, hlt⟩ | ⟨hh, hlt⟩
      · exact gridLocate_none_of_lt_head _ _ _ hh hlt
      · exact gridLocate_none_of_gt_last _ _ _ hc hh hlt
    unfold interp3
    rw [hz2]
    cases gridLocate table.SSD x with
    | none => rfl
    | some p =>
      cases gridLocate table.k y with
      | none => rfl
      | some p2 => rfl

/-- Witness for C2 at a concrete engine, table and state. -/
theorem calculate_bsf_formula_witness :
    (0 < ∑ i ∈ Finset.range ([30, 60] : List ℚ).length,
      ([30, 60] : List ℚ).getD i 0 * ([2, 1] : List ℚ).getD i 0 *
        (([30, 60] : List ℚ).map (fun _ => (1 : ℚ))).getD i 0) ∧
    (calculate_bsf demoEngine (some demoTable) demoStateSpek).1 =
      (∑ i ∈ Finset.range ([30, 60] : List ℚ).length,
        ([30, 60] : List ℚ).getD i 0 * ([2, 1] : List ℚ).getD i 0 *
          (([30, 60] : List ℚ).map (fun _ => (1 : ℚ))).getD i 0 *
          interp3 demoTable 1 (demoStateSpek.parameters.ssd_cm.getD 100)
            (([30, 60] : List ℚ).getD i 0)
            (demoStateSpek.parameters.field_size_cm.getD 10)) /
      (∑ i ∈ Finset.range ([30, 60] : List ℚ).length,
        ([30, 60] : List ℚ).getD i 0 * ([2, 1] : List ℚ).getD i 0 *
          (([30, 60] : List ℚ).map (fun _ => (1 : ℚ))).getD i 0) := by
  have hden : (0 : ℚ) < ∑ i ∈ Finset.range ([30, 60] : List ℚ).length,
      ([30, 60] : List ℚ).getD i 0 * ([2, 1] : List ℚ).getD i 0 *
        (([30, 60] : List ℚ).map (fun _ => (1 : ℚ))).getD i 0 := by
    norm_num [Finset.sum_range_succ]
  exact ⟨hden, (calculate_bsf_formula demoEngine demoTable demoStateSpek () [30, 60] [2, 1]
    (([30, 60] : List ℚ).map (fun _ => (1 : ℚ))) rfl rfl rfl rfl rfl rfl hden).1⟩

/-! ## C4: configuration export round-trip -/

theorem dictGet_jfield_ne (k k2 : String) (v : Option JValue)
    (rest : List (String × JValue)) (h : ¬k = k2) :
    dictGet (jfield k v ++ rest) k2 = dictGet rest k2 := by
  cases v <;> simp [jfield, dictGet, h]

theorem dictGet_jfield_hit (k : String) (v : Option JValue)
    (rest : List (String × JValue)) (hrest : dictGet rest k = none) :
    dictGet (jfield k v ++ rest) k = v := by
  cases v with
  | some j => simp [jfield, dictGet]
  | none => simpa [jfield] using hrest

theorem dictGet_jfield_only_ne (k k2 : String) (v : Option JValue) (h : ¬k = k2) :
    dictGet (jfield k v) k2 = none := by
  cases v <;> simp [jfield, dictGet, h]

theorem dictGet_jfield_only (k : String) (v : Option JValue) :
    dictGet (jfield k v) k = v := by
  cases v <;> simp [jfield, dictGet]

theorem filterFromJson_toJson (f : FilterSpec) : filterFromJson (filterToJson f) = some f := by
  obtain ⟨m, t⟩ := f
  simp [filterFromJson, filterToJson, dictGet, asStr, asNum]

theorem mapM_loop_filter (l : List FilterSpec) (acc : List FilterSpec) :
    List.mapM.loop filterFromJson (l.map filterToJson) acc = some (acc.reverse ++ l) := by
  induction l generalizing acc with
  | nil => simp [List.mapM.loop]
  | cons f t ih =>
    simp only [List.map_cons, List.mapM.loop, filterFromJson_toJson, Option.bind_eq_bind,
      Option.some_bind]
    rw [ih (f :: acc)]
    simp

theorem mapM_filter_roundtrip (l : List FilterSpec) :
    (l.map filterToJson).mapM filterFromJson = some l := by
  rw [show (l.map filterToJson).mapM filterFromJson
      = List.mapM.loop filterFromJson (l.map filterToJson) [] from rfl, mapM_loop_filter]
  simp

theorem jsonToParams_paramsToJson (p : ParamDict) :
    jsonToParams (paramsToJson p) = some p := by
  have hnum : ∀ o : Option ℚ, (Option.map JValue.num o).bind asNum = o := by
    intro o; cases o <;> rfl
  have hstr : ∀ o : Option String, (Option.map JValue.str o).bind asStr = o := by
    intro o; cases o <;> rfl
  have hfl : ∀ o : Option (List FilterSpec),
      (Option.map (fun l => JValue.arr (l.map filterToJson)) o).bind filtersFromJson = o := by
    intro o
    cases o with
    | none => rfl
    | some l => exact mapM_filter_roundtrip l
  obtain ⟨kv, ma, ts, mas, aa, tm, ssd, fl, fs, pm⟩ := p
  simp only [paramsToJson, jsonToParams, List.append_assoc, Option.some.injEq,
    ParamDict.mk.injEq]
  refine ⟨?_, ?_, ?_, ?_, ?_, ?_, ?_, ?_, ?_, ?_⟩
  · rw [dictGet_jfield_hit _ _ _
        (by simp [dictGet_jfield_ne, dictGet_jfield_only_ne])]
    exact hnum _
  · rw [dictGet_jfield_ne "kvp" "ma" _ _ (by decide),
        dictGet_jfield_hit _ _ _
          (by simp [dictGet_jfield_ne, dictGet_jfield_only_ne])]
    exact hnum _
  · rw [dictGet_jfield_ne "kvp" "time_s" _ _ (by decide),
        dictGet_jfield_ne "ma" "time_s" _ _ (by decide),
        dictGet_jfield_hit _ _ _
          (by simp [dictGet_jfield_ne, dictGet_jfield_only_ne])]
    exact hnum _
  · rw [dictGet_jfield_ne "kvp" "mas" _ _ (by decide),
        dictGet_jfield_ne "ma" "mas" _ _ (by decide),
        dictGet_jfield_ne "time_s" "mas" _ _ (by decide),
        dictGet_jfield_hit _ _ _
          (by simp [dictGet_jfield_ne, dictGet_jfield_only_ne])]
    exact hnum _
  · rw [dictGet_jfield_ne "kvp" "anode_angle" _ _ (by decide),
        dictGet_jfield_ne "ma" "anode_angle" _ _ (by decide),
        dictGet_jfield_ne "time_s" "anode_angle" _ _ (by decide),
        dictGet_jfield_ne "mas" "anode_angle" _ _ (by decide),
        dictGet_jfield_hit _ _ _
          (by simp [dictGet_jfield_ne, dictGet_jfield_only_ne])]
    exact hnum _
  · rw [dictGet_jfield_ne "kvp" "target_material" _ _ (by decide),
        dictGet_jfield_ne "ma" "target_material" _ _ (by decide),
        dictGet_jfield_ne "time_s" "target_material" _ _ (by decide),
        dictGet_jfield_ne "mas" "target_material" _ _ (by decide),
        dictGet_jfield_ne "anode_angle" "target_material" _ _ (by decide),
        dictGet_jfield_hit _ _ _
          (by simp [dictGet_jfield_ne, dictGet_jfield_only_ne])]
    exact hstr _
  · rw [dictGet_jfield_ne "kvp" "ssd_cm" _ _ (by decide),
        dictGet_jfield_ne "ma" "ssd_cm" _ _ (by decide),
        dictGet_jfield_ne "time_s" "ssd_cm" _ _ (by decide),
        dictGet_jfield_ne "mas" "ssd_cm" _ _ (by decide),
        dictGet_jfield_ne "anode_angle" "ssd_cm" _ _ (by decide),
        dictGet_jfield_ne "target_material" "ssd_cm" _ _ (by decide),
        dictGet_jfield_hit _ _ _
          (by simp [dictGet_jfield_ne, dictGet_jfield_only_ne])]
    exact hnum _
  · rw [dictGet_jfield_ne "kvp" "filters" _ _ (by decide),
        dictGet_jfield_ne "ma" "filters" _ _ (by decide),
        dictGet_jfield_ne "time_s" "filters" _ _ (by decide),
        dictGet_jfield_ne "mas" "filters" _ _ (by decide),
        dictGet_jfield_ne "anode_angle" "filters" _ _ (by decide),
        dictGet_jfield_ne "target_material" "filters" _ _ (by decide),
        dictGet_jfield_ne "ssd_cm" "filters" _ _ (by decide),
        dictGet_jfield_hit _ _ _
          (by simp [dictGet_jfield_ne, dictGet_jfield_only_ne])]
    exact hfl _
  · rw [dictGet_jfield_ne "kvp" "field_size_cm" _ _ (by decide),
        dictGet_jfield_ne "ma" "field_size_cm" _ _ (by decide),
        dictGet_jfield_ne "time_s" "field_size_cm" _ _ (by decide),
        dictGet_jfield_ne "mas" "field_size_cm" _ _ (by decide),
        dictGet_jfield_ne "anode_angle" "field_size_cm" _ _ (by decide),
        dictGet_jfield_ne "target_material" "field_size_cm" _ _ (by decide),
        dictGet_jfield_ne "ssd_cm" "field_size_cm" _ _ (by decide),
        dictGet_jfield_ne "filters" "field_size_cm" _ _ (by decide),
        dictGet_jfield_hit _ _ _
          (by simp [dictGet_jfield_only_ne])]
    exact hnum _
  · rw [dictGet_jfield_ne "kvp" "phantom_material" _ _ (by decide),
        dictGet_jfield_ne "ma" "phantom_material" _ _ (by decide),
        dictGet_jfield_ne "time_s" "phantom_material" _ _ (by decide),
        dictGet_jfield_ne "mas" "phantom_material" _ _ (by decide),
        dictGet_jfield_ne "anode_angle" "phantom_material" _ _ (by decide),
        dictGet_jfield_ne "target_material" "phantom_material" _ _ (by decide),
        dictGet_jfield_ne "ssd_cm" "phantom_material" _ _ (by decide),
        dictGet_jfield_ne "filters" "phantom_material" _ _ (by decide),
        dictGet_jfield_ne "field_size_cm" "phantom_material" _ _ (by decide),
        dictGet_jfield_only]
    exact hstr _


/-- C4: exporting a results dict whose parameters entry is a parameter
dict and reloading the written file returns exactly the serialized
parameter dict, and reading it back as a parameter dict reproduces the
original one (same keys, same values, same filter order). -/
theorem export_load_roundtrip (ex : DataExporter) (results : RDict) (p : ParamDict)
    (filename created : String) (fs : FileSys)
    (hp : dictGet results "parameters" = some (RVal.params p)) :
    load_configuration (export_configuration ex results filename created fs).1
        (export_configuration ex results filename created fs).2 = some (paramsToJson p) ∧
    jsonToParams (paramsToJson p) = some p := by
  constructor
  · unfold export_configuration load_configuration
    dsimp only
    rw [hp]
    dsimp only [rvalToJson]
    rw [dictGet_dictSet_self]
    simp [dictGet]
  · exact jsonToParams_paramsToJson p

/-- Witness for C4 at a concrete exporter, results dict and filesystem. -/
theorem export_load_roundtrip_witness :
    dictGet demoResults "parameters" = some (RVal.params demoState.parameters) ∧
    load_configuration
        (export_configuration demoExporter demoResults "xray_config.json" "t0" []).1
        (export_configuration demoExporter demoResults "xray_config.json" "t0" []).2 =
      some (paramsToJson demoState.parameters) ∧
    jsonToParams (paramsToJson demoState.parameters) = some demoState.parameters :=
  ⟨rfl, (export_load_roundtrip demoExporter demoResults demoState.parameters
      "xray_config.json" "t0" [] rfl).1,
    (export_load_roundtrip demoExporter demoResults demoState.parameters
      "xray_config.json" "t0" [] rfl).2⟩

/-! ## C5: reset of stored results on parameter changes -/

theorem mainStep_buttonless_results {σ : Type} (E : Engine σ) (bd : Option BsfTable)
    (st : SessionState σ) (inp : FormInputs)
    (hrm : inp.remove_clicked = none) (hadd : inp.add_clicked = false)
    (hcalc : inp.calculate_clicked = false) :
    (mainStep E bd st inp).results =
      if syncFilters st.filters inp.filter_widgets ≠ st.previous_filters
      then none else st.results := by
  simp [mainStep, mainAfterLoop, hrm, hadd, hcalc]

theorem mainStep_add_results {σ : Type} (E : Engine σ) (bd : Option BsfTable)
    (st : SessionState σ) (inp : FormInputs)
    (hrm : inp.remove_clicked = none) (hadd : inp.add_clicked = true) :
    (mainStep E bd st inp).results = none := by
  simp [mainStep, mainAfterLoop, hrm, hadd]

theorem mainStep_calc_results {σ : Type} (E : Engine σ) (bd : Option BsfTable)
    (st : SessionState σ) (inp : FormInputs)
    (hrm : inp.remove_clicked = none) (hadd : inp.add_clicked = false)
    (hcalc : inp.calculate_clicked = true) :
    (mainStep E bd st inp).results =
      some (perform_calculation E bd inp (syncFilters st.filters inp.filter_widgets)).1 := by
  simp [mainStep, mainAfterLoop, hrm, hadd, hcalc]

theorem mainStep_calc_filters {σ : Type} (E : Engine σ) (bd : Option BsfTable)
    (st : SessionState σ) (inp : FormInputs)
    (hrm : inp.remove_clicked = none) (hadd : inp.add_clicked = false)
    (hcalc : inp.calculate_clicked = true) :
    (mainStep E bd st inp).filters = syncFilters st.filters inp.filter_widgets := by
  simp [mainStep, mainAfterLoop, hrm, hadd, hcalc]

theorem mainStep_calc_previous {σ : Type} (E : Engine σ) (bd : Option BsfTable)
    (st : SessionState σ) (inp : FormInputs)
    (hrm : inp.remove_clicked = none) (hadd : inp.add_clicked = false)
    (hcalc : inp.calculate_clicked = true) :
    (mainStep E bd st inp).previous_filters =
      if syncFilters st.filters inp.filter_widgets ≠ st.previous_filters
      then syncFilters st.filters inp.filter_widgets else st.previous_filters := by
  simp [mainStep, mainAfterLoop, hrm, hadd, hcalc]

theorem mainStep_remove_results {σ : Type} (E : Engine σ) (bd : Option BsfTable)
    (st : SessionState σ) (inp : FormInputs) (i : Nat)
    (hrm : inp.remove_clicked = some i) (hi : i < st.filters.length) :
    (mainStep E bd st inp).results = none := by
  unfold mainStep
  rw [hrm]
  dsimp only
  rw [if_pos hi]

/-- C5 (amended): the web front end clears the stored results exactly on
filter-list changes.  After a rerun with no button event in which the
synced filter rows differ from previous_filters, and after any add or
valid remove click, the stored results are None; but a rerun in which
only non-filter widgets (kVp, mA, time, anode angle, SSD, field size)
changed keeps the previously stored results, so those displayed results
can be stale. -/
theorem app_results_reset_on_filter_change {σ : Type} (E : Engine σ) (bd : Option BsfTable)
    (st : SessionState σ) (inp : FormInputs) :
    (inp.remove_clicked = none → inp.calculate_clicked = false →
      syncFilters st.filters inp.filter_widgets ≠ st.previous_filters →
      (mainStep E bd st inp).results = none) ∧
    (inp.remove_clicked = none → inp.add_clicked = true →
      (mainStep E bd st inp).results = none) ∧
    (∀ i : Nat, inp.remove_clicked = some i → i < st.filters.length →
      (mainStep E bd st inp).results = none) ∧
    (inp.remove_clicked = none → inp.add_clicked = false → inp.calculate_clicked = false →
      syncFilters st.filters inp.filter_widgets = st.previous_filters →
      (mainStep E bd st inp).results = st.results) := by
  refine ⟨?_, ?_, ?_, ?_⟩
  · intro hrm hcalc hch
    cases hadd : inp.add_clicked with
    | true => exact mainStep_add_results E bd st inp hrm hadd
    | false => rw [mainStep_buttonless_results E bd st inp hrm hadd hcalc, if_pos hch]
  · intro hrm hadd
    exact mainStep_add_results E bd st inp hrm hadd
  · intro i hrm hi
    exact mainStep_remove_results E bd st inp i hrm hi
  · intro hrm hadd hcalc hch
    rw [mainStep_buttonless_results E bd st inp hrm hadd hcalc, if_neg]
    intro hne
    exact hne hch

/-- Witness for the amended C5 theorem: a thickness change, an add click,
a remove click and an unchanged-filters rerun, each at concrete session
state and form inputs. -/
theorem app_results_reset_on_filter_change_witness :
    (mainStep demoEngine none demoSession demoInputsChanged).results = none ∧
    (mainStep demoEngine none demoSession
        { demoInputs with add_clicked := true }).results = none ∧
    (mainStep demoEngine none demoSession
        { demoInputs with remove_clicked := some 0 }).results = none ∧
    (mainStep demoEngine none demoSession demoInputsView).results = demoSession.results :=
  ⟨(app_results_reset_on_filter_change demoEngine none demoSession demoInputsChanged).1
      rfl rfl (by norm_num [demoSession, demoInputsChanged, demoInputs, syncFilters]),
   (app_results_reset_on_filter_change demoEngine none demoSession
      { demoInputs with add_clicked := true }).2.1 rfl rfl,
   (app_results_reset_on_filter_change demoEngine none demoSession
      { demoInputs with remove_clicked := some 0 }).2.2.1 0 rfl (by decide),
   (app_results_reset_on_filter_change demoEngine none demoSession demoInputsView).2.2.2
      rfl rfl rfl rfl⟩

/-- C5 counterexample: a calculate click at 120 kVp stores results; a
following rerun in which the tube-voltage widget changed to 100 kVp (no
button clicked, filters untouched) keeps those stored results instead of
clearing them to None, so the displayed results no longer match the
current parameter values. -/
theorem app_stale_results_on_kvp_change :
    demoInputsView.kvp ≠ demoInputsCalc.kvp ∧
    (mainStep demoEngine none (mainStep demoEngine none demoSession demoInputsCalc)
        demoInputsView).results =
      (mainStep demoEngine none demoSession demoInputsCalc).results ∧
    (mainStep demoEngine none demoSession demoInputsCalc).results ≠ none := by
  have hf : (mainStep demoEngine none demoSession demoInputsCalc).filters =
      [⟨"Al", 2⟩] := by
    rw [mainStep_calc_filters demoEngine none demoSession demoInputsCalc rfl rfl rfl]
    rfl
  have hp : (mainStep demoEngine none demoSession demoInputsCalc).previous_filters =
      [⟨"Al", 2⟩] := by
    rw [mainStep_calc_previous demoEngine none demoSession demoInputsCalc rfl rfl rfl]
    rw [show syncFilters demoSession.filters demoInputsCalc.filter_widgets =
        [(⟨"Al", 2⟩ : WFilter)] from rfl,
      show demoSession.previous_filters = [(⟨"Al", 2⟩ : WFilter)] from rfl]
    exact ite_self _
  refine ⟨by norm_num [demoInputsView, demoInputsCalc, demoInputs], ?_, ?_⟩
  · rw [mainStep_buttonless_results demoEngine none
        (mainStep demoEngine none demoSession demoInputsCalc) demoInputsView rfl rfl rfl]
    rw [hf, hp]
    rw [if_neg]
    intro hne
    exact hne rfl
  · rw [mainStep_calc_results demoEngine none demoSession demoInputsCalc rfl rfl rfl]
    simp

/-! ## C6: zero-thickness filter entries are inert -/

/-- C6: a filter entry of thickness 0 does not change any computed
result.  In the web front end perform_calculation skips non-positive
thicknesses, so the built calculator is identical; in the calculator
itself the engine is asked to apply the zero filter, which (as in the
modelled engine, where attenuation by a zero thickness is the identity)
leaves the spectrum object unchanged, so spectrum generation, the
spectrum data and every entry of calculate_all_metrics except the echoed
parameters dict agree with the configuration with the entry removed. -/
theorem zero_thickness_filter {σ : Type} (E : Engine σ) (bd : Option BsfTable)
    (st st2 : CalcState σ) (m : String) (fl1 fl2 : List FilterSpec)
    (hz : ∀ s, E.filter s m 0 = Except.ok s)
    (hf : st.parameters.filters = some (fl1 ++ ⟨m, 0⟩ :: fl2))
    (hst2 : st2 = { st with parameters :=
      { st.parameters with filters := some (fl1 ++ fl2) } }) :
    (generate_spectrum E st).1 = (generate_spectrum E st2).1 ∧
    (generate_spectrum E st).2.spectrum = (generate_spectrum E st2).2.spectrum ∧
    (get_spectrum_data E st).1 = (get_spectrum_data E st2).1 ∧
    (∀ key, key ≠ "parameters" →
      dictGet (calculate_all_metrics E bd st).1 key =
        dictGet (calculate_all_metrics E bd st2).1 key) ∧
    (∀ (inp : FormInputs) (w1 w2 : List WFilter) (mw : String),
      perform_calculation E bd inp (w1 ++ ⟨mw, 0⟩ :: w2) =
        perform_calculation E bd inp (w1 ++ w2)) := by
  subst hst2
  obtain ⟨sp, par, res⟩ := st
  simp only at hf
  have happ : ∀ (l : List FilterSpec) (x : σ), applyFilters E x (l ++ ⟨m, 0⟩ :: fl2) =
      applyFilters E x (l ++ fl2) := by
    intro l
    induction l with
    | nil =>
      intro x
      simp only [List.nil_append, applyFilters, hz x]
    | cons f t ih =>
      intro x
      simp only [List.cons_append, applyFilters]
      cases E.filter x f.material f.thickness_mm with
      | ok x2 => exact ih x2
      | error e => rfl
  have hgt : genTry E par =
      genTry E { par with filters := some (fl1 ++ fl2) } := by
    unfold genTry
    dsimp only
    rw [hf]
    cases hk : par.kvp with
    | none => rfl
    | some kvp =>
      cases ha : par.anode_angle with
      | none => rfl
      | some th =>
        dsimp only
        cases hsp0 : E.Spek kvp th with
        | error e => rfl
        | ok s0 =>
          dsimp only [Option.getD]
          rw [happ fl1 s0]
  have hne : par ≠ ParamDict.empty := by
    intro h
    rw [h] at hf
    simp [ParamDict.empty] at hf
  have hne2 : ({ par with filters := some (fl1 ++ fl2) } : ParamDict) ≠ ParamDict.empty := by
    intro h
    have h2 := congrArg ParamDict.filters h
    simp [ParamDict.empty] at h2
  have hgenchar :
      (generate_spectrum E ⟨sp, par, res⟩ = (false, ⟨sp, par, res⟩) ∧
        generate_spectrum E ⟨sp, { par with filters := some (fl1 ++ fl2) }, res⟩ =
          (false, ⟨sp, { par with filters := some (fl1 ++ fl2) }, res⟩)) ∨
      (∃ s, generate_spectrum E ⟨sp, par, res⟩ = (true, ⟨some s, par, res⟩) ∧
        generate_spectrum E ⟨sp, { par with filters := some (fl1 ++ fl2) }, res⟩ =
          (true, ⟨some s, { par with filters := some (fl1 ++ fl2) }, res⟩)) ∨
      (∃ s, generate_spectrum E ⟨sp, par, res⟩ = (false, ⟨some s, par, res⟩) ∧
        generate_spectrum E ⟨sp, { par with filters := some (fl1 ++ fl2) }, res⟩ =
          (false, ⟨some s, { par with filters := some (fl1 ++ fl2) }, res⟩)) := by
    by_cases hav : E.spAvailable = false
    · exact Or.inl ⟨generate_spectrum_fail_id E _ (Or.inl hav),
        generate_spectrum_fail_id E _ (Or.inl hav)⟩
    have hav2 : E.spAvailable = true := by
      cases hAv3 : E.spAvailable with
      | false => exact absurd hAv3 hav
      | true => rfl
    cases hgt2 : genTry E par with
    | ok s =>
      refine Or.inr (Or.inl ⟨s, generate_spectrum_ok E _ s hav2 hne hgt2, ?_⟩)
      exact generate_spectrum_ok E _ s hav2 hne2 (hgt ▸ hgt2)
    | error o =>
      cases o with
      | none =>
        refine Or.inl ⟨generate_spectrum_fail_id E _ (Or.inr (Or.inr hgt2)), ?_⟩
        exact generate_spectrum_fail_id E _ (Or.inr (Or.inr (hgt ▸ hgt2)))
      | some s =>
        refine Or.inr (Or.inr ⟨s, generate_spectrum_partial E _ s hav2 hne hgt2, ?_⟩)
        exact generate_spectrum_partial E _ s hav2 hne2 (hgt ▸ hgt2)
  refine ⟨?_, ?_, ?_, ?_, ?_⟩
  · rcases hgenchar with ⟨h1, h2⟩ | ⟨s, h1, h2⟩ | ⟨s, h1, h2⟩ <;> rw [h1, h2]
  · rcases hgenchar with ⟨h1, h2⟩ | ⟨s, h1, h2⟩ | ⟨s, h1, h2⟩ <;> rw [h1, h2]
  · cases sp with
    | some s1 =>
      unfold get_spectrum_data
      rw [ensureSpectrum_some E _ s1 _ _ rfl, ensureSpectrum_some E _ s1 _ _ rfl]
      dsimp only
      cases E.get_spectrum_edges s1 <;> rfl
    | none =>
      rcases hgenchar with ⟨h1, h2⟩ | ⟨s, h1, h2⟩ | ⟨s, h1, h2⟩
      · unfold get_spectrum_data
        rw [ensureSpectrum_gen_fail E _ _ _ _ rfl h1, ensureSpectrum_gen_fail E _ _ _ _ rfl h2]
      · unfold get_spectrum_data
        rw [ensureSpectrum_gen_ok E _ _ _ _ rfl h1, ensureSpectrum_gen_ok E _ _ _ _ rfl h2]
        dsimp only
        cases E.get_spectrum_edges s <;> rfl
      · unfold get_spectrum_data
        rw [ensureSpectrum_gen_fail E _ _ _ _ rfl h1, ensureSpectrum_gen_fail E _ _ _ _ rfl h2]
  · intro key hkey
    cases sp with
    | some s1 =>
      rw [calculate_all_metrics_body E bd _ s1 rfl, calculate_all_metrics_body E bd _ s1 rfl]
      dsimp only
      unfold amResult
      rw [dictGet_cons_ne _ _ _ _ (fun hh => hkey hh.symm),
        dictGet_cons_ne _ _ _ _ (fun hh => hkey hh.symm)]
      rfl
    | none =>
      rcases hgenchar with ⟨h1, h2⟩ | ⟨s, h1, h2⟩ | ⟨s, h1, h2⟩
      · rw [calculate_all_metrics_nospec E bd _ rfl h1,
          calculate_all_metrics_nospec E bd _ rfl h2]
        dsimp only
        unfold amResult
        rw [dictGet_cons_ne _ _ _ _ (fun hh => hkey hh.symm),
          dictGet_cons_ne _ _ _ _ (fun hh => hkey hh.symm)]
        rfl
      · rw [calculate_all_metrics_gen E bd _ _ s rfl h1 rfl,
          calculate_all_metrics_gen E bd _ _ s rfl h2 rfl,
          calculate_all_metrics_body E bd _ s rfl, calculate_all_metrics_body E bd _ s rfl]
        dsimp only
        unfold amResult
        rw [dictGet_cons_ne _ _ _ _ (fun hh => hkey hh.symm),
          dictGet_cons_ne _ _ _ _ (fun hh => hkey hh.symm)]
        rfl
      · rw [calculate_all_metrics_partial_full E bd _ s rfl h1,
          calculate_all_metrics_partial_full E bd _ s rfl h2]
        dsimp only
        rw [dictGet_cons_ne _ _ _ _ (fun hh => hkey hh.symm),
          dictGet_cons_ne _ _ _ _ (fun hh => hkey hh.symm)]
        rfl
  · intro inp w1 w2 mw
    unfold perform_calculation
    have hfold : ∀ c : CalcState σ,
        (w1 ++ ⟨mw, 0⟩ :: w2).foldl
          (fun c f => if f.thickness > 0 then add_filtration f.material f.thickness c else c) c =
        (w1 ++ w2).foldl
          (fun c f => if f.thickness > 0 then add_filtration f.material f.thickness c else c) c := by
      intro c
      rw [List.foldl_append, List.foldl_append, List.foldl_cons]
      have h0 : ¬((0 : ℚ) > 0) := lt_irrefl 0
      simp [h0]
    dsimp only
    rw [hfold]

/-- Witness for C6 at a concrete engine and state. -/
theorem zero_thickness_filter_witness :
    (generate_spectrum demoEngine demoStateZ).1 = (generate_spectrum demoEngine demoStateZ2).1 ∧
    dictGet (calculate_all_metrics demoEngine none demoStateZ).1 "esak_mgy" =
      dictGet (calculate_all_metrics demoEngine none demoStateZ2).1 "esak_mgy" := by
  have h := zero_thickness_filter demoEngine none demoStateZ demoStateZ2 "Cu"
    [⟨"Al", 5 / 2⟩] [] (fun s => rfl) rfl rfl
  exact ⟨h.1, h.2.2.2.1 "esak_mgy" (by decide)⟩

/-! ## C7: the metrics sweep grid and its accumulated arrays -/

theorem arange_bounds (start stop step : ℚ) (hstep : 0 < step) :
    ∀ x ∈ arange start stop step, start ≤ x ∧ x < stop := by
  intro x hx
  unfold arange at hx
  rcases List.mem_map.mp hx with ⟨i, hi, hix⟩
  have hiz : (i : ℤ) < ⌈(stop - start) / step⌉ := Int.lt_toNat.mp (List.mem_range.mp hi)
  have hiq : (i : ℚ) < (stop - start) / step := by
    have := Int.lt_ceil.mp hiz
    push_cast at this
    exact this
  have hqs : (i : ℚ) * step < stop - start := (lt_div_iff hstep).mp hiq
  have hnn : (0 : ℚ) ≤ (i : ℚ) * step := mul_nonneg (by positivity) hstep.le
  constructor
  · rw [← hix]; linarith
  · rw [← hix]; linarith

/-- C7 (amended): get_metrics iterates the tube-potential grid
numpy.arange(50., 151., kV_inc), whose members all satisfy 50 ≤ kV < 151
(for the increments 5 and 1 used by the callers this is exactly the grid
50, 55, ..., 150 resp. 50, 51, ..., 150, but for other increments the
last value may exceed 150), builds the spectrum model once per grid value
and returns the grid together with the four per-potential arrays, with
contrast = (sigb - sigs)/sigb pointwise and cnrd = cnr/sqrt(ki)
pointwise. -/
theorem get_metrics_spec {σ : Type} (T : TutorialEngine σ)
    (bg sg : List (String × ℚ)) (SDD SOD kV_inc : ℚ) (physics matd : String)
    (td rhod f w G : ℚ) (SSDe : ℚ) (hinc : 0 < kV_inc)
    (hSSD : SSDe = SDD - bg.foldl (fun acc item => acc + item.2) 0) :
    get_metrics T bg sg SDD SOD kV_inc physics matd td rhod f w G =
      (arange 50 151 kV_inc,
       (arange 50 151 kV_inc).map (contrastOf T bg sg SDD SSDe physics matd td rhod f w G),
       (arange 50 151 kV_inc).map (cnrOf T bg sg SDD SSDe physics matd td rhod f w G),
       (arange 50 151 kV_inc).map (kiOf T SSDe physics),
       (arange 50 151 kV_inc).map (cnrdOf T bg sg SDD SSDe physics matd td rhod f w G)) ∧
    (∀ x ∈ arange 50 151 kV_inc, 50 ≤ x ∧ x < 151) ∧
    (∀ kV, contrastOf T bg sg SDD SSDe physics matd td rhod f w G kV =
      (sigbOf T bg sg SDD SSDe physics matd td rhod f w G kV -
          sigsOf T bg sg SDD SSDe physics matd td rhod f w G kV) /
        sigbOf T bg sg SDD SSDe physics matd td rhod f w G kV) ∧
    (∀ kV, cnrdOf T bg sg SDD SSDe physics matd td rhod f w G kV =
      cnrOf T bg sg SDD SSDe physics matd td rhod f w G kV /
        T.sqrt (kiOf T SSDe physics kV)) := by
  subst hSSD
  refine ⟨?_, arange_bounds 50 151 kV_inc hinc, fun kV => rfl, fun kV => rfl⟩
  unfold get_metrics
  dsimp only
  rw [List.map_map, List.map_map, List.map_map, List.map_map]
  rfl

/-- Witness for C7 at the demo tutorial engine with the increment 5 used
by the repository scripts. -/
theorem get_metrics_spec_witness :
    (0 : ℚ) < 5 ∧
    (get_metrics demoTutorialEngine [] [] 180 155 5 "kqp" "CaSO4" 1 1 1 1 1).1 =
      arange 50 151 5 := by
  refine ⟨by norm_num, ?_⟩
  rw [(get_metrics_spec demoTutorialEngine [] [] 180 155 5 "kqp" "CaSO4" 1 1 1 1 1 180
      (by norm_num) (by norm_num)).1]

/-- C7 counterexample: for the valid increment 0.5 the grid returned by
get_metrics contains 150.5, so the sweep is not bounded by 150 kV: the
upper bound written in the source is arange's exclusive 151. -/
theorem get_metrics_grid_exceeds_150 :
    (150 : ℚ) < 301 / 2 ∧
    (301 / 2 : ℚ) ∈ (get_metrics demoTutorialEngine [] [] 180 155 (1 / 2)
        "kqp" "CaSO4" 1 1 1 1 1).1 := by
  constructor
  · norm_num
  · show (301 / 2 : ℚ) ∈ arange 50 151 (1 / 2)
    unfold arange
    have hq : ((151 : ℚ) - 50) / (1 / 2) = 202 := by norm_num
    rw [hq]
    have hlen : (⌈(202 : ℚ)⌉).toNat = 202 := by
      rw [show ⌈(202 : ℚ)⌉ = 202 from by norm_num]
      rfl
    rw [hlen]
    exact List.mem_map.mpr ⟨201, List.mem_range.mpr (by norm_num), by push_cast; norm_num⟩

/-! ## C8: monotonicity in the filtration thickness -/

/-- C8: for a fixed tube potential and geometry, and a spectrum engine for
which thicker Al filtration strictly decreases the kerma query and
strictly increases the first half-value layer (the physical behaviour of
the external engine, stated here as hypotheses on the abstract engine),
increasing the thickness passed to add_filtration strictly decreases the
esak_mgy result and strictly increases the hvl1_al_mm result of
calculate_all_metrics. -/
theorem filtration_monotonic {σ : Type} (E : Engine σ) (bd : Option BsfTable)
    (kvp ma time_s anode_angle : ℚ) (tm : String) (ssd : ℚ)
    (s0 : σ) (spt : ℚ → σ) (ker : ℚ → ℚ) (Q : ℚ → BeamQuality) (t1 t2 : ℚ)
    (hav : E.spAvailable = true)
    (hmk : E.Spek kvp anode_angle = Except.ok s0)
    (hfl : ∀ t, E.filter s0 "Al" t = Except.ok (spt t))
    (hker : ∀ t, E.get_kerma (spt t) = Except.ok (ker t))
    (hbq : ∀ t, bqTry E (spt t) = some (Q t))
    (hker_anti : ∀ a b, a < b → ker b < ker a)
    (hhvl_mono : ∀ a b, a < b → (Q a).hvl1_al_mm < (Q b).hvl1_al_mm)
    (hma : 0 < ma) (hts : 0 < time_s) (hssd : 0 < ssd) (h12 : t1 < t2) :
    (dictGet (calculate_all_metrics E bd (add_filtration "Al" t1
        (set_clinical_parameters kvp ma time_s anode_angle tm ssd (CalcState.init σ)))).1
        "esak_mgy" =
      some (RVal.num (ker t1 * (ma * time_s) * (100 / ssd) ^ 2 / 1000))) ∧
    (dictGet (calculate_all_metrics E bd (add_filtration "Al" t2
        (set_clinical_parameters kvp ma time_s anode_angle tm ssd (CalcState.init σ)))).1
        "esak_mgy" =
      some (RVal.num (ker t2 * (ma * time_s) * (100 / ssd) ^ 2 / 1000))) ∧
    ker t2 * (ma * time_s) * (100 / ssd) ^ 2 / 1000 <
      ker t1 * (ma * time_s) * (100 / ssd) ^ 2 / 1000 ∧
    (dictGet (calculate_all_metrics E bd (add_filtration "Al" t1
        (set_clinical_parameters kvp ma time_s anode_angle tm ssd (CalcState.init σ)))).1
        "hvl1_al_mm" = some (RVal.num (Q t1).hvl1_al_mm)) ∧
    (dictGet (calculate_all_metrics E bd (add_filtration "Al" t2
        (set_clinical_parameters kvp ma time_s anode_angle tm ssd (CalcState.init σ)))).1
        "hvl1_al_mm" = some (RVal.num (Q t2).hvl1_al_mm)) ∧
    (Q t1).hvl1_al_mm < (Q t2).hvl1_al_mm := by
  have hgen : ∀ t, genTry E (add_filtration "Al" t
      (set_clinical_parameters kvp ma time_s anode_angle tm ssd
        (CalcState.init σ))).parameters = Except.ok (spt t) := by
    intro t
    simp [genTry, add_filtration, set_clinical_parameters, CalcState.init,
      applyFilters, hmk, hfl t]
  have hne : ∀ t : ℚ, (add_filtration "Al" t
      (set_clinical_parameters kvp ma time_s anode_angle tm ssd
        (CalcState.init σ))).parameters ≠ ParamDict.empty := by
    intro t h
    have h2 := congrArg ParamDict.kvp h
    simp [add_filtration, set_clinical_parameters, CalcState.init, ParamDict.empty] at h2
  have hval : ∀ t, amEsak E (add_filtration "Al" t
      (set_clinical_parameters kvp ma time_s anode_angle tm ssd
        (CalcState.init σ))).parameters (some (spt t)) =
      ker t * (ma * time_s) * (100 / ssd) ^ 2 / 1000 := by
    intro t
    simp [amEsak, esakTry, hker t, add_filtration, set_clinical_parameters,
      CalcState.init, hssd.ne']
  have hkey : ∀ t, dictGet (calculate_all_metrics E bd (add_filtration "Al" t
      (set_clinical_parameters kvp ma time_s anode_angle tm ssd (CalcState.init σ)))).1
        "esak_mgy" =
      some (RVal.num (ker t * (ma * time_s) * (100 / ssd) ^ 2 / 1000)) ∧
      dictGet (calculate_all_metrics E bd (add_filtration "Al" t
        (set_clinical_parameters kvp ma time_s anode_angle tm ssd (CalcState.init σ)))).1
        "hvl1_al_mm" = some (RVal.num (Q t).hvl1_al_mm) := by
    intro t
    have hg := generate_spectrum_ok E (add_filtration "Al" t
      (set_clinical_parameters kvp ma time_s anode_angle tm ssd (CalcState.init σ)))
      (spt t) hav (hne t) (hgen t)
    rw [calculate_all_metrics_gen E bd _ _ (spt t) rfl hg rfl,
      calculate_all_metrics_body E bd _ (spt t) rfl]
    dsimp only
    rw [amResult_get_esak, amResult_get_hvl1 E bd _ (spt t) _ (Q t) (hbq t), hval t]
    exact ⟨rfl, rfl⟩
  have hM : 0 < ma * time_s := mul_pos hma hts
  have hD : 0 < (100 / ssd) ^ 2 := by positivity
  refine ⟨(hkey t1).1, (hkey t2).1, ?_, (hkey t1).2, (hkey t2).2, hhvl_mono t1 t2 h12⟩
  have h1000 : (0 : ℚ) < 1000 := by norm_num
  have hlt : ker t2 * (ma * time_s) * (100 / ssd) ^ 2 <
      ker t1 * (ma * time_s) * (100 / ssd) ^ 2 :=
    mul_lt_mul_of_pos_right (mul_lt_mul_of_pos_right (hker_anti t1 t2 h12) hM) hD
  exact (div_lt_div_right h1000).mpr hlt

/-- Witness for C8 with an engine over rational spectrum states. -/
theorem filtration_monotonic_witness :
    (dictGet (calculate_all_metrics monoEngine none (add_filtration "Al" 1
        (set_clinical_parameters 120 100 (1 / 10) 12 "W" 100 (CalcState.init ℚ)))).1
        "esak_mgy" =
      some (RVal.num ((10 - 1) * (100 * (1 / 10)) * (100 / 100) ^ 2 / 1000))) ∧
    (dictGet (calculate_all_metrics monoEngine none (add_filtration "Al" 2
        (set_clinical_parameters 120 100 (1 / 10) 12 "W" 100 (CalcState.init ℚ)))).1
        "esak_mgy" =
      some (RVal.num ((10 - 2) * (100 * (1 / 10)) * (100 / 100) ^ 2 / 1000))) ∧
    ((10 : ℚ) - 2) * (100 * (1 / 10)) * (100 / 100) ^ 2 / 1000 <
      (10 - 1) * (100 * (1 / 10)) * (100 / 100) ^ 2 / 1000 ∧
    (dictGet (calculate_all_metrics monoEngine none (add_filtration "Al" 1
        (set_clinical_parameters 120 100 (1 / 10) 12 "W" 100 (CalcState.init ℚ)))).1
        "hvl1_al_mm" = some (RVal.num (monoQ 1).hvl1_al_mm)) ∧
    (dictGet (calculate_all_metrics monoEngine none (add_filtration "Al" 2
        (set_clinical_parameters 120 100 (1 / 10) 12 "W" 100 (CalcState.init ℚ)))).1
        "hvl1_al_mm" = some (RVal.num (monoQ 2).hvl1_al_mm)) ∧
    (monoQ 1).hvl1_al_mm < (monoQ 2).hvl1_al_mm :=
  filtration_monotonic monoEngine none 120 100 (1 / 10) 12 "W" 100 0 (fun t => t)
    (fun t => 10 - t) monoQ 1 2 rfl rfl (fun _ => rfl) (fun _ => rfl) (fun _ => rfl)
    (fun a b h => by simp only []; linarith)
    (fun a b h => by simpa [monoQ] using h)
    (by norm_num) (by norm_num) (by norm_num) (by norm_num)

/-! ## C9: determinism and idempotence of calculate_all_metrics -/

/-- C9 as stated is false on the code: when spectrum generation fails
while applying a filter, the partially filtered spectrum object stays on
the instance, and a second calculate_all_metrics call reuses it, so the
two calls return different dictionaries (esak_mgy 0 on the first call
versus 1/20 on the second, with 120 kVp, 100 mA, 0.1 s, a kerma query
returning 5 and a filter whose application raises). -/
theorem calculate_all_metrics_not_idempotent :
    dictGet (calculate_all_metrics filterFailEngine none demoStateFilt).1 "esak_mgy" =
      some (RVal.num 0) ∧
    dictGet (calculate_all_metrics filterFailEngine none
        ((calculate_all_metrics filterFailEngine none demoStateFilt).2)).1 "esak_mgy" =
      some (RVal.num (5 * (100 * (1 / 10)) * (100 / 100) ^ 2 / 1000)) ∧
    (5 * (100 * (1 / 10)) * (100 / 100) ^ 2 / 1000 : ℚ) = 1 / 20 ∧
    (calculate_all_metrics filterFailEngine none
        ((calculate_all_metrics filterFailEngine none demoStateFilt).2)).1 ≠
      (calculate_all_metrics filterFailEngine none demoStateFilt).1 := by
  have hg : generate_spectrum filterFailEngine demoStateFilt =
      (false, { demoStateFilt with spectrum := some () }) := rfl
  obtain ⟨R1, hAM1, hR1⟩ :=
    calculate_all_metrics_partial filterFailEngine none demoStateFilt
      { demoStateFilt with spectrum := some () } () rfl hg rfl rfl
  have hesak : amEsak filterFailEngine demoStateFilt.parameters (some ()) =
      5 * (100 * (1 / 10)) * (100 / 100) ^ 2 / 1000 := by
    have h100 : (100 : ℚ) ≠ 0 := by norm_num
    unfold amEsak esakTry
    simp [filterFailEngine, demoEngine, demoStateFilt, demoState, add_filtration,
      set_clinical_parameters, CalcState.init, h100]
  have hAM2 : dictGet (calculate_all_metrics filterFailEngine none
      ((calculate_all_metrics filterFailEngine none demoStateFilt).2)).1 "esak_mgy" =
      some (RVal.num (5 * (100 * (1 / 10)) * (100 / 100) ^ 2 / 1000)) := by
    rw [hAM1]
    dsimp only
    rw [calculate_all_metrics_body filterFailEngine none _ () rfl]
    dsimp only
    rw [amResult_get_esak]
    rw [show ({ demoStateFilt with spectrum := some () } : CalcState Unit).parameters =
      demoStateFilt.parameters from rfl, hesak]
  refine ⟨by rw [hAM1]; exact hR1, hAM2, by norm_num, ?_⟩
  intro h
  have h2 := congrArg (fun r => dictGet r "esak_mgy") h
  dsimp only at h2
  rw [hAM2] at h2
  rw [hAM1] at h2
  dsimp only at h2
  rw [hR1] at h2
  have h3 : (5 * (100 * (1 / 10)) * (100 / 100) ^ 2 / 1000 : ℚ) = 0 := by
    have := Option.some.inj h2
    exact RVal.num.inj this
  norm_num at h3

/-- C9 amended: calculate_all_metrics is deterministic (two fresh
instances with equal parameter dicts return equal dicts), and calling it
twice in succession on one instance returns the same dict both times
provided the first call does not fail spectrum generation midway through
filtration (i.e. the spectrum is already set, or generation succeeds, or
generation fails leaving the state unchanged).  In the excluded case the
counterexample above shows the two calls genuinely differ. -/
theorem calculate_all_metrics_idempotent {σ : Type} (E : Engine σ) (bd : Option BsfTable)
    (st : CalcState σ)
    (hsafe : st.spectrum ≠ none ∨ (generate_spectrum E st).1 = true ∨
      generate_spectrum E st = (false, st)) :
    (calculate_all_metrics E bd ((calculate_all_metrics E bd st).2)).1 =
      (calculate_all_metrics E bd st).1 ∧
    (∀ st1 st2 : CalcState σ, st1.parameters = st2.parameters →
      st1.spectrum = none → st2.spectrum = none → st1.results = [] → st2.results = [] →
      (calculate_all_metrics E bd st1).1 = (calculate_all_metrics E bd st2).1) := by
  constructor
  · obtain ⟨sp, par, res⟩ := st
    cases sp with
    | some s =>
      rw [calculate_all_metrics_body E bd ⟨some s, par, res⟩ s rfl]
      dsimp only
      rw [calculate_all_metrics_body E bd _ s rfl]
      dsimp only
      exact amResult_stable E bd par (some s) (dictGet res "bsf")
    | none =>
      rcases hsafe with h | h | h
      · simp at h
      · obtain ⟨s, hgt, hav, hne, hg⟩ := generate_spectrum_true E _ h
        rw [calculate_all_metrics_gen E bd _ _ s rfl hg rfl]
        rw [calculate_all_metrics_body E bd
          ({ (⟨none, par, res⟩ : CalcState σ) with spectrum := some s }) s rfl]
        dsimp only
        rw [calculate_all_metrics_body E bd _ s rfl]
        dsimp only
        exact amResult_stable E bd par (some s) (dictGet res "bsf")
      · rw [calculate_all_metrics_nospec E bd _ rfl h]
        dsimp only
        have hg2 := generate_spectrum_fail_transfer E ⟨none, par, res⟩
          ⟨none, par, amResult E bd par none (dictGet res "bsf")⟩ rfl h rfl
        rw [calculate_all_metrics_nospec E bd _ rfl hg2]
        dsimp only
        exact amResult_stable E bd par none (dictGet res "bsf")
  · intro st1 st2 hp h1 h2 hr1 hr2
    obtain ⟨sp1, par1, res1⟩ := st1
    obtain ⟨sp2, par2, res2⟩ := st2
    simp only at hp h1 h2 hr1 hr2
    subst h1
    subst h2
    subst hr1
    subst hr2
    subst hp
    rfl

/-- Witness for the amended C9 at a concrete engine and state. -/
theorem calculate_all_metrics_idempotent_witness :
    (calculate_all_metrics demoEngine none
        ((calculate_all_metrics demoEngine none demoState).2)).1 =
      (calculate_all_metrics demoEngine none demoState).1 :=
  (calculate_all_metrics_idempotent demoEngine none demoState (Or.inr (Or.inl rfl))).1

/-- Witness for C3 with the always-raising engine. -/
theorem error_fallbacks_witness :
    (generate_spectrum failEngine demoState).1 = false ∧
    (calculate_esak failEngine demoState).1 = 0 ∧
    (calculate_bsf failEngine (some demoTable) demoState).1 = 1 ∧
    (get_spectrum_data failEngine demoState).1 = ([], []) ∧
    (calculate_bsf failEngine none demoState).1 = 1 := by
  have h := error_fallbacks failEngine (some demoTable) demoState rfl
    (Or.inr (fun kvp th => ⟨"boom", rfl⟩))
  exact ⟨h.1, h.2.1, h.2.2.1, h.2.2.2.1, h.2.2.2.2 demoState⟩

end XraySpec
